import Mathlib

/-!
Verification development for the IBM Cloud VPC cluster reconciler
(`cloud/scope/vpc_cluster.go` of the cluster-api provider, together with
the resource-manager service `GetResourceGroupByName`).

The reconciler is embedded shallowly: the IBM Cloud collaborator is a mock
cloud state (`Cloud`), every collaborator call is recorded in a trace
(`CloudCall`), and each Go method of `VPCClusterScope` becomes a Lean
function from `World` (cluster object + cloud + trace) to a result paired
with the successor `World`.  Go errors (including nil-pointer dereferences,
modelled as errors) are `Except String`.  Created resources receive a fresh
identifier that provably differs from every identifier already present.
-/

namespace VPCReconciler

/-! ## Desired-state (spec) data model, following the Go API types -/

structure GenericResourceReference where
  id : String
  name : Option String
deriving DecidableEq, Repr

structure VPCResource where
  id : Option String
  name : Option String
deriving DecidableEq, Repr

structure Subnet where
  id : Option String
  name : Option String
  zone : Option String
deriving DecidableEq, Repr

inductive VPCSecurityGroupRuleDirection
  | inbound
  | outbound
deriving DecidableEq, Repr

inductive VPCSecurityGroupRuleProtocol
  | all
  | icmp
  | tcp
  | udp
deriving DecidableEq, Repr

inductive VPCSecurityGroupRuleRemoteType
  | any
  | address
  | cidr
  | sg
deriving DecidableEq, Repr

structure VPCSecurityGroupPortRange where
  minimumPort : Int
  maximumPort : Int
deriving DecidableEq, Repr

structure VPCSecurityGroupRuleRemote where
  remoteType : VPCSecurityGroupRuleRemoteType
  address : Option String
  cidrSubnetName : Option String
  securityGroupName : Option String
deriving DecidableEq, Repr

structure VPCSecurityGroupRulePrototype where
  protocol : VPCSecurityGroupRuleProtocol
  portRange : Option VPCSecurityGroupPortRange
  icmpCode : Option Int
  icmpType : Option Int
  remotes : List VPCSecurityGroupRuleRemote
deriving DecidableEq, Repr

structure VPCSecurityGroupRule where
  direction : VPCSecurityGroupRuleDirection
  source : Option VPCSecurityGroupRulePrototype
  destination : Option VPCSecurityGroupRulePrototype
deriving DecidableEq, Repr

structure VPCSecurityGroup where
  id : Option String
  name : Option String
  rules : List VPCSecurityGroupRule
deriving DecidableEq, Repr

structure AdditionalListenerSpec where
  port : Int
deriving DecidableEq, Repr

structure VPCLoadBalancerSpec where
  name : String
  id : Option String
  public : Option Bool
  additionalListeners : List AdditionalListenerSpec
deriving DecidableEq, Repr

structure ImageSpec where
  name : String
  cosInstance : Option String
  cosBucket : Option String
  cosBucketRegion : Option String
  cosObject : Option String
  operatingSystem : Option String
  resourceGroup : Option GenericResourceReference
deriving DecidableEq, Repr

structure VPCNetworkSpec where
  workerSubnets : List Subnet
  controlPlaneSubnets : List Subnet
  loadBalancers : List VPCLoadBalancerSpec
  resourceGroup : Option String
  securityGroups : List VPCSecurityGroup
  vpc : Option VPCResource
deriving DecidableEq, Repr

structure IBMVPCClusterSpec where
  region : String
  resourceGroup : String
  image : Option ImageSpec
  network : Option VPCNetworkSpec
deriving DecidableEq, Repr

/-! ## Observed-state (status) data model -/

structure VPCResourceStatus where
  id : String
  name : String
  ready : Bool
deriving DecidableEq, Repr

structure VPCLoadBalancerStatus where
  id : Option String
  state : String
  hostname : Option String
  controllerCreated : Option Bool
deriving DecidableEq, Repr

structure VPCNetworkStatus where
  workerSubnets : List (String × VPCResourceStatus)
  controlPlaneSubnets : List (String × VPCResourceStatus)
  loadBalancers : List (String × VPCLoadBalancerStatus)
  resourceGroup : Option GenericResourceReference
  securityGroups : List (String × VPCResourceStatus)
  vpc : Option VPCResourceStatus
deriving DecidableEq, Repr

structure IBMVPCClusterStatus where
  imageStatus : Option VPCResourceStatus
  networkStatus : Option VPCNetworkStatus
  resourceGroup : Option GenericResourceReference
deriving DecidableEq, Repr

/-- The cluster object carried by the scope: the object name, the API server
port of the owning CAPI cluster (None selects the default), spec and status. -/
structure IBMVPCCluster where
  name : String
  apiServerPort : Option Int
  spec : IBMVPCClusterSpec
  status : IBMVPCClusterStatus
deriving DecidableEq, Repr

/-! ## Mock cloud state -/

structure CloudResourceGroup where
  id : String
  name : String
deriving DecidableEq, Repr

structure CloudVPC where
  id : String
  name : String
  status : String
  crn : String
deriving DecidableEq, Repr

structure CloudSubnet where
  id : String
  name : String
  status : String
  crn : String
  zone : String
  ipv4CIDRBlock : Option String
deriving DecidableEq, Repr

structure CloudPublicGateway where
  id : String
  name : String
  crn : String
  resourceGroup : String
deriving DecidableEq, Repr

/-- A live security-group-rule remote, a closed variant mirroring the
concrete SDK types distinguished by the source's reflection type switch. -/
inductive CloudRuleRemote
  | cidr (cidrBlock : String)
  | ip (address : String)
  | sgRef (name : Option String) (sgId : Option String) (crn : String)
  | other
deriving DecidableEq, Repr

/-- A live security-group rule, a closed variant mirroring the three
concrete SDK rule types distinguished by the source's reflection type switch. -/
inductive CloudRule
  | all (direction : String) (remote : CloudRuleRemote)
  | icmp (direction : String) (code : Option Int) (icmpTyp : Option Int)
      (remote : CloudRuleRemote)
  | tcpudp (direction : String) (protocol : String) (portMin : Option Int)
      (portMax : Option Int) (remote : CloudRuleRemote)
deriving DecidableEq, Repr

structure CloudSecurityGroup where
  id : String
  name : String
  crn : String
  rules : List CloudRule
deriving DecidableEq, Repr

structure CloudLoadBalancer where
  id : String
  name : String
  provisioningStatus : String
  hostname : String
deriving DecidableEq, Repr

structure CloudImage where
  id : String
  name : String
  status : String
  crn : String
deriving DecidableEq, Repr

structure Cloud where
  resourceGroups : List CloudResourceGroup
  vpcs : List CloudVPC
  subnets : List CloudSubnet
  publicGateways : List CloudPublicGateway
  securityGroups : List CloudSecurityGroup
  loadBalancers : List CloudLoadBalancer
  images : List CloudImage
  zones : List String
  tags : List String
deriving DecidableEq, Repr

/-! ## Collaborator-call trace -/

structure LBHealthMonitor where
  delay : Int
  maxRetries : Int
  timeout : Int
  typ : String
deriving DecidableEq, Repr

structure LBPool where
  algorithm : String
  healthMonitor : LBHealthMonitor
  name : String
  protocol : String
deriving DecidableEq, Repr

structure LBListener where
  protocol : String
  port : Int
  defaultPoolName : String
deriving DecidableEq, Repr

structure LBCreateOptions where
  isPublic : Bool
  name : String
  resourceGroup : String
  subnets : List String
  pools : List LBPool
  listeners : List LBListener
deriving DecidableEq, Repr

/-- A recorded collaborator call; create calls carry the salient request payload. -/
inductive CloudCall
  | createVPC (name : Option String) (resourceGroup : String)
  | createSubnet (name : Option String)
  | createPublicGateway (name : String)
  | createSecurityGroup (name : Option String)
  | createImage (name : String) (resourceGroup : Option String) (href : String)
  | createLoadBalancer (opts : LBCreateOptions)
  | createSecurityGroupRule (securityGroupID : String)
  | getVPC (vpcId : String)
  | getVPCByName (name : String)
  | getSubnet (subnetId : String)
  | getSubnetByName (name : String)
  | getPublicGatewayByName (name : String)
  | getSecurityGroup (sgId : String)
  | getSecurityGroupByName (name : String)
  | listSecurityGroupRules (securityGroupID : String)
  | getLoadBalancer (lbId : String)
  | getLoadBalancerByName (name : String)
  | getImage (imageId : String)
  | getImageByName (name : String)
  | getZonesByRegion (region : String)
  | listResourceGroupsByName (name : String)
  | getTagByName (name : String)
  | createTag (name : String)
  | attachTag (tag : String) (crn : String)
deriving DecidableEq, Repr

/-- The full state an embedded scope method acts on. -/
structure World where
  cluster : IBMVPCCluster
  cloud : Cloud
  trace : List CloudCall
deriving DecidableEq, Repr

/-! ## Association-list helpers (Go map semantics for the status maps) -/

/-- Lookup in an association list (Go map read; absent key yields `none`). -/
def lookupA {α : Type} (l : List (String × α)) (k : String) : Option α :=
  match l with
  | [] => none
  | (k', v) :: rest => if k' = k then some v else lookupA rest k

/-- Write to an association list (Go map write), replacing in place. -/
def insertA {α : Type} (l : List (String × α)) (k : String) (v : α) :
    List (String × α) :=
  match l with
  | [] => [(k, v)]
  | (k', v') :: rest =>
      if k' = k then (k, v) :: rest else (k', v') :: insertA rest k v

/-! ## Fresh identifiers

Creating a resource in the mock cloud yields an identifier that is provably
distinct from every identifier already present (the string is strictly longer
than each of them). -/

def joinAll (l : List String) : String := l.foldl (fun a b => a ++ b) ""

def Cloud.allIds (c : Cloud) : List String :=
  c.resourceGroups.map (fun r => r.id) ++ c.vpcs.map (fun r => r.id) ++
    c.subnets.map (fun r => r.id) ++ c.publicGateways.map (fun r => r.id) ++
    c.securityGroups.map (fun r => r.id) ++ c.loadBalancers.map (fun r => r.id) ++
    c.images.map (fun r => r.id)

def freshId (c : Cloud) : String := "id" ++ joinAll c.allIds

/-! ## Mock collaborator lookups (pure reads of the cloud state) -/

def Cloud.findVPCByName (c : Cloud) (n : String) : Option CloudVPC :=
  c.vpcs.find? (fun v => v.name = n)

def Cloud.findVPC (c : Cloud) (i : String) : Option CloudVPC :=
  c.vpcs.find? (fun v => v.id = i)

def Cloud.findSubnetByName (c : Cloud) (n : String) : Option CloudSubnet :=
  c.subnets.find? (fun v => v.name = n)

def Cloud.findSubnet (c : Cloud) (i : String) : Option CloudSubnet :=
  c.subnets.find? (fun v => v.id = i)

def Cloud.findPublicGatewayByName (c : Cloud) (n : String) (rg : String) :
    Option CloudPublicGateway :=
  c.publicGateways.find? (fun v => v.name = n ∧ v.resourceGroup = rg)

def Cloud.findSecurityGroupByName (c : Cloud) (n : String) :
    Option CloudSecurityGroup :=
  c.securityGroups.find? (fun v => v.name = n)

def Cloud.findSecurityGroup (c : Cloud) (i : String) : Option CloudSecurityGroup :=
  c.securityGroups.find? (fun v => v.id = i)

def Cloud.findLoadBalancerByName (c : Cloud) (n : String) :
    Option CloudLoadBalancer :=
  c.loadBalancers.find? (fun v => v.name = n)

def Cloud.findLoadBalancer (c : Cloud) (i : String) : Option CloudLoadBalancer :=
  c.loadBalancers.find? (fun v => v.id = i)

def Cloud.findImageByName (c : Cloud) (n : String) : Option CloudImage :=
  c.images.find? (fun v => v.name = n)

def Cloud.findImage (c : Cloud) (i : String) : Option CloudImage :=
  c.images.find? (fun v => v.id = i)

def Cloud.findResourceGroupsByName (c : Cloud) (n : String) :
    List CloudResourceGroup :=
  c.resourceGroups.filter (fun v => v.name = n)

/-! ## Mock collaborator creations

A freshly created resource starts in the cloud's initial provisioning state
(`pending` / `create_pending`), matching the asynchronous provisioning
behaviour of the real service: a created resource is not immediately usable. -/

def Cloud.mkVPC (c : Cloud) (name : Option String) : CloudVPC × Cloud :=
  let i := freshId c
  let v : CloudVPC :=
    { id := i, name := name.getD "", status := "pending", crn := "crn" ++ i }
  (v, { c with vpcs := c.vpcs ++ [v] })

def Cloud.mkSubnet (c : Cloud) (name : Option String) (zone : Option String) :
    CloudSubnet × Cloud :=
  let i := freshId c
  let v : CloudSubnet :=
    { id := i, name := name.getD "", status := "pending", crn := "crn" ++ i,
      zone := zone.getD "", ipv4CIDRBlock := some ("10.0.0.0/24" ++ i) }
  (v, { c with subnets := c.subnets ++ [v] })

def Cloud.mkPublicGateway (c : Cloud) (name : String) (rg : String) :
    CloudPublicGateway × Cloud :=
  let i := freshId c
  let v : CloudPublicGateway :=
    { id := i, name := name, crn := "crn" ++ i, resourceGroup := rg }
  (v, { c with publicGateways := c.publicGateways ++ [v] })

def Cloud.mkSecurityGroup (c : Cloud) (name : Option String) :
    CloudSecurityGroup × Cloud :=
  let i := freshId c
  let v : CloudSecurityGroup :=
    { id := i, name := name.getD "", crn := "crn" ++ i, rules := [] }
  (v, { c with securityGroups := c.securityGroups ++ [v] })

def Cloud.mkImage (c : Cloud) (name : String) : CloudImage × Cloud :=
  let i := freshId c
  let v : CloudImage :=
    { id := i, name := name, status := "pending", crn := "crn" ++ i }
  (v, { c with images := c.images ++ [v] })

def Cloud.mkLoadBalancer (c : Cloud) (name : String) :
    CloudLoadBalancer × Cloud :=
  let i := freshId c
  let v : CloudLoadBalancer :=
    { id := i, name := name, provisioningStatus := "create_pending",
      hostname := "host" ++ i }
  (v, { c with loadBalancers := c.loadBalancers ++ [v] })

/-- Record a freshly created rule on the security group with the given id
(the cloud echoes the rule prototype). -/
def Cloud.addRule (c : Cloud) (gid : String) (r : CloudRule) : Cloud :=
  { c with securityGroups :=
      c.securityGroups.map (fun g =>
        if g.id = gid then { g with rules := g.rules ++ [r] } else g) }

/-! ## World plumbing -/

def World.emit (w : World) (c : CloudCall) : World :=
  { w with trace := w.trace ++ [c] }

def World.withCloud (w : World) (c : Cloud) : World := { w with cloud := c }

def World.withStatus (w : World) (st : IBMVPCClusterStatus) : World :=
  { w with cluster := { w.cluster with status := st } }

/-- An empty `VPCNetworkStatus` (Go `&infrav1beta2.VPCNetworkStatus{}`). -/
def emptyNetworkStatus : VPCNetworkStatus :=
  { workerSubnets := [], controlPlaneSubnets := [], loadBalancers := [],
    resourceGroup := none, securityGroups := [], vpc := none }

/-- Current network status, materialising the empty one when absent. -/
def World.networkStatusD (w : World) : VPCNetworkStatus :=
  (w.cluster.status.networkStatus).getD emptyNetworkStatus

def World.setNetworkStatus (w : World) (ns : VPCNetworkStatus) : World :=
  w.withStatus { w.cluster.status with networkStatus := some ns }

/-! ## Constants from the source -/

def DefaultAPIServerPort : Int := 6443

def CIDRBlockAny : String := "0.0.0.0/0"

def vpcAvailableStatus : String := "available"

def subnetAvailableStatus : String := "available"

def imageAvailableStatus : String := "available"

def lbActiveState : String := "active"

def lbCreatePendingState : String := "create_pending"

inductive ResourceType
  | resourceGroup
  | vpc
  | subnet
  | publicGateway
  | customImage
  | controlPlaneSubnet
  | computeSubnet
  | securityGroup
  | loadBalancer
deriving DecidableEq, Repr

def directionString : VPCSecurityGroupRuleDirection → String
  | .inbound => "inbound"
  | .outbound => "outbound"

def protocolString : VPCSecurityGroupRuleProtocol → String
  | .all => "all"
  | .icmp => "icmp"
  | .tcp => "tcp"
  | .udp => "udp"

/-! ## Status setters (`SetStatus`, `SetVPCResourceStatus`, `SetLoadBalancerStatus`) -/

/-- `SetStatus` for the `ResourceGroup` resource type (`Set` assigns the ID only). -/
def SetStatus (w : World) (r : GenericResourceReference) : World :=
  match w.cluster.status.resourceGroup with
  | none => w.withStatus { w.cluster.status with resourceGroup := some r }
  | some old =>
      w.withStatus { w.cluster.status with resourceGroup := some { old with id := r.id } }

/-- `SetVPCResourceStatus`: writes the status entry for a VPC resource. -/
def SetVPCResourceStatus (w : World) (t : ResourceType) (r : VPCResourceStatus) :
    World :=
  match t with
  | .vpc =>
      match w.cluster.status.networkStatus with
      | none => w.setNetworkStatus { emptyNetworkStatus with vpc := some r }
      | some ns => w.setNetworkStatus { ns with vpc := some r }
  | .customImage => w.withStatus { w.cluster.status with imageStatus := some r }
  | .controlPlaneSubnet =>
      let ns := w.networkStatusD
      w.setNetworkStatus
        { ns with controlPlaneSubnets := insertA ns.controlPlaneSubnets r.name r }
  | .computeSubnet =>
      let ns := w.networkStatusD
      w.setNetworkStatus
        { ns with workerSubnets := insertA ns.workerSubnets r.name r }
  | .securityGroup =>
      let ns := w.networkStatusD
      w.setNetworkStatus
        { ns with securityGroups := insertA ns.securityGroups r.name r }
  | _ => w

/-- `SetLoadBalancerStatus`: the Go method keys the map by `*loadBalancer.ID`;
callers pass that dereferenced key explicitly here.  An update in place keeps
the previous `controllerCreated` flag. -/
def SetLoadBalancerStatusAt (w : World) (key : String) (lb : VPCLoadBalancerStatus) :
    World :=
  let ns := w.networkStatusD
  let lbs :=
    match lookupA ns.loadBalancers key with
    | some old =>
        insertA ns.loadBalancers key
          { old with id := lb.id, state := lb.state, hostname := lb.hostname }
    | none => insertA ns.loadBalancers key lb
  w.setNetworkStatus { ns with loadBalancers := lbs }

/-! ## Scope accessors -/

/-- `s.VPC()`: the VPC resource of the network spec. -/
def specVPC (cl : IBMVPCCluster) : Option VPCResource :=
  match cl.spec.network with
  | none => none
  | some nw => nw.vpc

/-- `s.APIServerPort()`. -/
def APIServerPort (cl : IBMVPCCluster) : Int :=
  cl.apiServerPort.getD DefaultAPIServerPort

/-- `s.GetServiceName(resourceType)`. -/
def GetServiceName (cl : IBMVPCCluster) : ResourceType → Option String
  | .vpc =>
      match specVPC cl with
      | none => some (cl.name ++ "-vpc")
      | some v =>
          match v.name with
          | none => some (cl.name ++ "-vpc")
          | some n => some n
  | .subnet => some (cl.name ++ "-subnet")
  | .publicGateway => some (cl.name ++ "-pgateway")
  | _ => none

/-! ## Tagging (`CheckTagExists`, `TagResource`) -/

def CheckTagExists (w : World) (tagName : String) : Except String Bool × World :=
  let w1 := w.emit (.getTagByName tagName)
  (.ok (w1.cloud.tags.contains tagName), w1)

def TagResource (w : World) (tagName : String) (crn : String) :
    Except String Unit × World :=
  match CheckTagExists w tagName with
  | (.error e, w1) => (.error e, w1)
  | (.ok tagFound, w1) =>
    let w2 :=
      if tagFound then w1
      else
        let wa := w1.emit (.createTag tagName)
        wa.withCloud { wa.cloud with tags := wa.cloud.tags ++ [tagName] }
    (.ok (), w2.emit (.attachTag tagName crn))

/-! ## Resource-group resolution -/

/-- `Service.GetResourceGroupByName` of the resource-manager service: a
list-by-name call whose result must contain exactly one match. -/
def serviceGetResourceGroupByName (w : World) (n : String) :
    Except String CloudResourceGroup × World :=
  let w1 := w.emit (.listResourceGroupsByName n)
  match w1.cloud.findResourceGroupsByName n with
  | [g] => (.ok g, w1)
  | _ => (.error "failed to find Resource Group", w1)

def getResourceGroupIDLookup (w : World) : Except String String × World :=
  let n :=
    if w.cluster.spec.resourceGroup = "" then w.cluster.name
    else w.cluster.spec.resourceGroup
  match serviceGetResourceGroupByName w n with
  | (.error e, w1) =>
      (.error ("failed to retrieve resource group by name; " ++ e), w1)
  | (.ok g, w1) => (.ok g.id, w1)

/-- `s.GetResourceGroupID()`: status cache first, else look up by the spec's
resource-group name (or the cluster name when empty). -/
def GetResourceGroupID (w : World) : Except String String × World :=
  match w.cluster.status.resourceGroup with
  | some rg => if rg.id ≠ "" then (.ok rg.id, w) else getResourceGroupIDLookup w
  | none => getResourceGroupIDLookup w

def getNetworkRGLookup (w : World) : Except String String × World :=
  match w.cluster.spec.network with
  | some nw =>
    match nw.resourceGroup with
    | some n =>
      match serviceGetResourceGroupByName w n with
      | (.error e, w1) =>
          (.error ("failed to retrieve network Resource Group Id by name: " ++ e), w1)
      | (.ok g, w1) =>
        let ns := w1.networkStatusD
        let rgRef : GenericResourceReference :=
          match ns.resourceGroup with
          | some old => { old with id := g.id }
          | none => { id := g.id, name := none }
        (.ok g.id, w1.setNetworkStatus { ns with resourceGroup := some rgRef })
    | none => GetResourceGroupID w
  | none => GetResourceGroupID w

/-- `s.GetNetworkResourceGroupID()`: network status cache, else the network
spec's resource group (cached back to status), else the cluster resource group. -/
def GetNetworkResourceGroupID (w : World) : Except String String × World :=
  match w.cluster.status.networkStatus with
  | some ns =>
    match ns.resourceGroup with
    | some rg => if rg.id ≠ "" then (.ok rg.id, w) else getNetworkRGLookup w
    | none => getNetworkRGLookup w
  | none => getNetworkRGLookup w

def ReconcileResourceGroup (w : World) : Except String Unit × World :=
  match GetResourceGroupID w with
  | (.error e, w1) => (.error e, w1)
  | (.ok rgid, w1) => (.ok (), SetStatus w1 { id := rgid, name := none })

/-! ## VPC -/

/-- Record the VPC ID back into the spec (`s.IBMVPCCluster.Spec.Network.VPC.ID = ...`). -/
def setSpecVPCID (w : World) (i : String) : World :=
  match w.cluster.spec.network with
  | none => w
  | some nw =>
    match nw.vpc with
    | none => w
    | some v =>
      { w with cluster := { w.cluster with spec := { w.cluster.spec with
          network := some { nw with vpc := some { v with id := some i } } } } }

def getVPCIDFromSpec (w : World) : Except String (Option String) × World :=
  match w.cluster.spec.network with
  | some nw =>
    match nw.vpc with
    | some v =>
      match v.id with
      | some i => (.ok (some i), w)
      | none =>
        match v.name with
        | some n =>
          let w1 := w.emit (.getVPCByName n)
          match w1.cloud.findVPCByName n with
          | some cv => (.ok (some cv.id), setSpecVPCID w1 cv.id)
          | none => (.ok none, w1)
        | none => (.ok none, w)
    | none => (.ok none, w)
  | none => (.ok none, w)

/-- `s.GetVPCID()`: status first, then spec ID, then lookup by spec name. -/
def GetVPCID (w : World) : Except String (Option String) × World :=
  match w.cluster.status.networkStatus with
  | some ns =>
    match ns.vpc with
    | some v => (.ok (some v.id), w)
    | none => getVPCIDFromSpec w
  | none => getVPCIDFromSpec w

def createVPC (w : World) : Except String String × World :=
  match GetResourceGroupID w with
  | (.error e, w1) => (.error ("error getting resource group id: " ++ e), w1)
  | (.ok rgid, w1) =>
    if rgid = "" then
      (.error "error getting resource group id, id is empty", w1)
    else
      let nameOpt := GetServiceName w1.cluster .vpc
      let w2 := w1.emit (.createVPC nameOpt rgid)
      let vc := w2.cloud.mkVPC nameOpt
      let w3 := w2.withCloud vc.2
      match TagResource w3 w3.cluster.name vc.1.crn with
      | (.error e, w4) => (.error ("error tagging VPC: " ++ e), w4)
      | (.ok _, w4) => (.ok vc.1.id, w4)

def ReconcileVPC (w : World) : Except String Bool × World :=
  match GetVPCID w with
  | (.error e, w1) => (.error e, w1)
  | (.ok (some vpcid), w1) =>
    let w2 := w1.emit (.getVPC vpcid)
    match w2.cloud.findVPC vpcid with
    | none => (.error ("failed to get VPC with id " ++ vpcid), w2)
    | some v =>
      let requeue := if v.status = vpcAvailableStatus then false else true
      (.ok requeue,
        SetVPCResourceStatus w2 .vpc { id := vpcid, name := v.name, ready := !requeue })
  | (.ok none, w1) =>
    match createVPC w1 with
    | (.error e, w2) => (.error e, w2)
    | (.ok vid, w2) =>
      match GetServiceName w2.cluster .vpc with
      | some n =>
          (.ok true, SetVPCResourceStatus w2 .vpc { id := vid, name := n, ready := false })
      | none => (.error "panic: nil service name", w2)

/-! ## Custom image -/

def buildCOSObjectHRef (cl : IBMVPCCluster) : Except String String :=
  match cl.spec.image with
  | none => .error "error no image spec defined"
  | some im =>
    match im.cosInstance, im.cosBucket, im.cosObject with
    | some _, some b, some o =>
      let r :=
        match im.cosBucketRegion with
        | some br => br
        | none => cl.spec.region
      .ok ("cos://" ++ r ++ "/" ++ b ++ "/" ++ o)
    | _, _, _ => .error "error failed to build cos object href, cos details missing"

def createCustomImage (w : World) : Except String CloudImage × World :=
  match w.cluster.spec.image with
  | none => (.error "error failed to create vpc custom image, no image spec defined", w)
  | some im =>
    let rgw : Except String (Option String) × World :=
      match im.resourceGroup with
      | some rg =>
        if rg.id ≠ "" then (.ok (some rg.id), w)
        else
          match rg.name with
          | some n =>
            match serviceGetResourceGroupByName w n with
            | (.error e, w1) =>
                (.error ("error retrieving resource group by name: " ++ e), w1)
            | (.ok g, w1) => (.ok (some g.id), w1)
          | none => (.ok none, w)
      | none =>
        match GetResourceGroupID w with
        | (.error e, w1) => (.error ("error retrieving resource group id: " ++ e), w1)
        | (.ok i, w1) => (.ok (some i), w1)
    match rgw with
    | (.error e, w1) => (.error e, w1)
    | (.ok rgid, w1) =>
      match im.operatingSystem with
      | none =>
          (.error "error failed to create vpc custom image due to missing operatingSystem", w1)
      | some _ =>
        match buildCOSObjectHRef w1.cluster with
        | .error e => (.error ("error building vpc custom image file href: " ++ e), w1)
        | .ok href =>
          let w2 := w1.emit (.createImage im.name rgid href)
          let ic := w2.cloud.mkImage im.name
          let w3 := w2.withCloud ic.2
          match TagResource w3 w3.cluster.name ic.1.crn with
          | (.error e, w4) => (.error ("error failure tagging vpc custom image: " ++ e), w4)
          | (.ok _, w4) => (.ok ic.1, w4)

def ReconcileVPCCustomImage (w : World) : Except String Bool × World :=
  let idw : Option String × World :=
    match w.cluster.status.imageStatus with
    | some st =>
      if st.id ≠ "" then (some st.id, w)
      else if st.name ≠ "" then
        let w1 := w.emit (.getImageByName st.name)
        match w1.cloud.findImageByName st.name with
        | some img => (some img.id, w1)
        | none => (none, w1)
      else (none, w)
    | none => (none, w)
  match idw with
  | (some iid, w1) =>
    let w2 := w1.emit (.getImage iid)
    match w2.cloud.findImage iid with
    | none => (.error ("error failed to retrieve vpc custom image with id " ++ iid), w2)
    | some img =>
      let requeue := if img.status = imageAvailableStatus then false else true
      (.ok requeue,
        SetVPCResourceStatus w2 .customImage { id := iid, name := img.name, ready := !requeue })
  | (none, w1) =>
    match w1.cluster.spec.image with
    | none => (.error "error failed to reconcile vpc custom image, no image spec defined", w1)
    | some _ =>
      match createCustomImage w1 with
      | (.error e, w2) => (.error ("error failure trying to create vpc custom image: " ++ e), w2)
      | (.ok img, w2) =>
        (.ok true,
          SetVPCResourceStatus w2 .customImage { id := img.id, name := img.name, ready := false })

/-! ## Public gateways and subnets -/

def findOrCreatePublicGateway (w : World) (zone : String) :
    Except String CloudPublicGateway × World :=
  match GetServiceName w.cluster .publicGateway with
  | none => (.error "panic: nil service name", w)
  | some base =>
    let pgName := base ++ "-" ++ zone
    match GetResourceGroupID w with
    | (.error e, w1) => (.error e, w1)
    | (.ok rgid, w1) =>
      let w2 := w1.emit (.getPublicGatewayByName pgName)
      match w2.cloud.findPublicGatewayByName pgName rgid with
      | some pg => (.ok pg, w2)
      | none =>
        match GetVPCID w2 with
        | (.error e, w3) => (.error e, w3)
        | (.ok none, w3) =>
            (.error "error failed to get vpc id for public gateway creation", w3)
        | (.ok (some _), w3) =>
          let w4 := w3.emit (.createPublicGateway pgName)
          let pc := w4.cloud.mkPublicGateway pgName rgid
          let w5 := w4.withCloud pc.2
          match TagResource w5 w5.cluster.name pc.1.crn with
          | (.error e, w6) => (.error e, w6)
          | (.ok _, w6) => (.ok pc.1, w6)

def buildSubnetsForZones (w : World) : Except String (List Subnet) × World :=
  let w1 := w.emit (.getZonesByRegion w.cluster.spec.region)
  let zones := w1.cloud.zones
  if zones = [] then (.error "error getting subnet zones, no zones found", w1)
  else
    match GetServiceName w1.cluster .subnet with
    | none => (.error "panic: nil service name", w1)
    | some base =>
      (.ok (zones.map fun z =>
        { id := none, name := some (base ++ "-" ++ z), zone := some z }), w1)

def createSubnet (w : World) (subnet : Subnet) : Except String CloudSubnet × World :=
  match GetResourceGroupID w with
  | (.error _, w1) =>
      (.error "error fetching resource group id for subnet creation", w1)
  | (.ok rgid, w1) =>
    if rgid = "" then
      (.error "error getting resource group id for resource group", w1)
    else
      match GetVPCID w1 with
      | (.error e, w2) => (.error ("error getting vpc id for subnet creation: " ++ e), w2)
      | (.ok _, w2) =>
        match subnet.zone with
        | none => (.error "error subnet zone must be defined", w2)
        | some zone =>
          match findOrCreatePublicGateway w2 zone with
          | (.error e, w3) => (.error e, w3)
          | (.ok _, w3) =>
            let w4 := w3.emit (.createSubnet subnet.name)
            let sc := w4.cloud.mkSubnet subnet.name subnet.zone
            let w5 := w4.withCloud sc.2
            match TagResource w5 w5.cluster.name sc.1.crn with
            | (.error e, w6) => (.error e, w6)
            | (.ok _, w6) => (.ok sc.1, w6)

def reconcileSubnet (w : World) (subnet : Subnet) (isControlPlane : Bool) :
    Except String Bool × World :=
  let idw : Except String (Option String) × World :=
    match subnet.id with
    | some i => (.ok (some i), w)
    | none =>
      match subnet.name with
      | none => (.error "error subnet has no name or id", w)
      | some n =>
        let w1 := w.emit (.getSubnetByName n)
        match w1.cloud.findSubnetByName n with
        | some sd => (.ok (some sd.id), w1)
        | none => (.ok none, w1)
  match idw with
  | (.error e, w1) => (.error e, w1)
  | (.ok (some sid), w1) =>
    let cached : Except String Bool × World :=
      match w1.cluster.status.networkStatus with
      | none => (.ok false, w1)
      | some ns =>
        match subnet.name with
        | none => (.error "panic: nil subnet name", w1)
        | some n =>
          if isControlPlane then
            match lookupA ns.controlPlaneSubnets n with
            | some st => (.ok st.ready, w1)
            | none => (.ok false, w1)
          else
            match lookupA ns.workerSubnets n with
            | some st => (.ok st.ready, w1)
            | none => (.ok false, w1)
    match cached with
    | (.error e, w2) => (.error e, w2)
    | (.ok true, w2) => (.ok false, w2)
    | (.ok false, w2) =>
      let w3 := w2.emit (.getSubnet sid)
      match w3.cloud.findSubnet sid with
      | none => (.error ("error failed to get subnet with id " ++ sid), w3)
      | some sd =>
        let requeue := if sd.status = subnetAvailableStatus then false else true
        match subnet.name with
        | none => (.error "panic: nil subnet name", w3)
        | some n =>
          let st : VPCResourceStatus := { id := sid, name := n, ready := !requeue }
          (.ok requeue,
            if isControlPlane then SetVPCResourceStatus w3 .controlPlaneSubnet st
            else SetVPCResourceStatus w3 .computeSubnet st)
  | (.ok none, w1) =>
    match createSubnet w1 subnet with
    | (.error e, w2) => (.error e, w2)
    | (.ok sd, w2) =>
      match w2.cluster.status.networkStatus with
      | none => (.error "panic: nil network status", w2)
      | some ns =>
        let st : VPCResourceStatus := { id := sd.id, name := "", ready := false }
        (.ok true, w2.setNetworkStatus
          (if isControlPlane then
            { ns with controlPlaneSubnets := insertA ns.controlPlaneSubnets sd.id st }
          else
            { ns with workerSubnets := insertA ns.workerSubnets sd.id st }))

def reconcileSubnetList (w : World) (subnets : List Subnet) (isControlPlane : Bool)
    (requeue : Bool) : Except String Bool × World :=
  match subnets with
  | [] => (.ok requeue, w)
  | s :: rest =>
    match reconcileSubnet w s isControlPlane with
    | (.error e, w1) =>
        (.error ((if isControlPlane then "error failed reconciling control plane subnet: "
                  else "error failed reconciling worker subnet: ") ++ e), w1)
    | (.ok rq, w1) => reconcileSubnetList w1 rest isControlPlane (requeue || rq)

def ReconcileSubnets (w : World) : Except String Bool × World :=
  match w.cluster.spec.network with
  | none => (.error "panic: nil network spec", w)
  | some nw =>
    let cpw : Except String (List Subnet) × World :=
      if nw.controlPlaneSubnets = [] then buildSubnetsForZones w
      else (.ok nw.controlPlaneSubnets, w)
    match cpw with
    | (.error e, w1) => (.error ("error failed building control plane subnets: " ++ e), w1)
    | (.ok cpSubnets, w1) =>
      match reconcileSubnetList w1 cpSubnets true false with
      | (.error e, w2) => (.error e, w2)
      | (.ok rq1, w2) =>
        let ww : Except String (List Subnet) × World :=
          if nw.workerSubnets = [] then
            if nw.controlPlaneSubnets ≠ [] then buildSubnetsForZones w2
            else (.ok cpSubnets, w2)
          else (.ok nw.workerSubnets, w2)
        match ww with
        | (.error e, w3) => (.error ("error failed building worker subnets: " ++ e), w3)
        | (.ok wSubnets, w3) =>
          match reconcileSubnetList w3 wSubnets false false with
          | (.error e, w4) => (.error e, w4)
          | (.ok rq2, w4) => (.ok (rq1 || rq2), w4)

/-! ## Security groups -/

def getSecurityGroupIDFromStatus (cl : IBMVPCCluster) (n : String) : Option String :=
  match cl.status.networkStatus with
  | some ns => (lookupA ns.securityGroups n).map (fun st => st.id)
  | none => none

def getSecurityGroupID (cl : IBMVPCCluster) (sg : VPCSecurityGroup) : Option String :=
  match sg.id with
  | some i => some i
  | none =>
    match sg.name with
    | none => none
    | some n => getSecurityGroupIDFromStatus cl n

def reconcileSecurityGroup (w : World) (sg : VPCSecurityGroup) :
    Except String Bool × World :=
  let idw : Except String (Option String) × World :=
    match sg.id with
    | some i => (.ok (some i), w)
    | none =>
      match sg.name with
      | none => (.error "error securityGroup has no name or id", w)
      | some n =>
        let fromStatus : Option String :=
          match w.cluster.status.networkStatus with
          | some ns => (lookupA ns.securityGroups n).map (fun st => st.id)
          | none => none
        let w1 := w.emit (.getSecurityGroupByName n)
        match w1.cloud.findSecurityGroupByName n with
        | some d => (.ok (some d.id), w1)
        | none => (.ok fromStatus, w1)
  match idw with
  | (.error e, w1) => (.error e, w1)
  | (.ok (some gid), w1) =>
    let w2 := w1.emit (.getSecurityGroup gid)
    match w2.cloud.findSecurityGroup gid with
    | none => (.error ("error could not find security group with id=" ++ gid), w2)
    | some _ =>
      (.ok false,
        SetVPCResourceStatus w2 .securityGroup { id := gid, name := "", ready := true })
  | (.ok none, w1) =>
    match GetVPCID w1 with
    | (.error _, w2) => (.error "error retrieving vpc id for security group creation", w2)
    | (.ok _, w2) =>
      match GetResourceGroupID w2 with
      | (.error _, w3) =>
          (.error "error retrieving resource id for security group creation", w3)
      | (.ok _, w3) =>
        let w4 := w3.emit (.createSecurityGroup sg.name)
        let gc := w4.cloud.mkSecurityGroup sg.name
        let w5 := w4.withCloud gc.2
        let w6 := SetVPCResourceStatus w5 .securityGroup
          { id := gc.1.id, name := "", ready := false }
        match TagResource w6 w6.cluster.name gc.1.crn with
        | (.error e, w7) => (.error e, w7)
        | (.ok _, w7) => (.ok true, w7)

/-! ### Rule matching -/

def checkSecurityGroupRulePrototypeRemote (w : World)
    (remote : VPCSecurityGroupRuleRemote) (existingRemote : CloudRuleRemote) :
    Except String Bool × World :=
  match existingRemote with
  | .cidr cidrBlock =>
    if remote.remoteType = .cidr then
      -- The source dereferences remote.SecurityGroupName here (not CIDRSubnetName).
      match remote.securityGroupName with
      | none => (.error "panic: nil security group name", w)
      | some n =>
        let w1 := w.emit (.getSubnetByName n)
        match w1.cloud.findSubnetByName n with
        | none =>
            (.error "error failed getting subnet by name for security group rule", w1)
        | some sd =>
          match sd.ipv4CIDRBlock with
          | none =>
              (.error "error failed getting subnet by name for security group rule, no CIDRBlock", w1)
          | some cb =>
              if cb = cidrBlock then (.ok true, w1) else (.ok false, w1)
    else (.ok false, w)
  | .ip addr =>
    match remote.remoteType with
    | .address =>
      match remote.address with
      | none => (.error "panic: nil remote address", w)
      | some a => if a = addr then (.ok true, w) else (.ok false, w)
    | .any => if addr = CIDRBlockAny then (.ok true, w) else (.ok false, w)
    | _ => (.ok false, w)
  | .sgRef nameOpt idOpt crn =>
    if remote.remoteType = .sg then
      match remote.securityGroupName with
      | none => (.error "panic: nil security group name", w)
      | some n =>
        if nameOpt = some n then (.ok true, w)
        else
          match getSecurityGroupIDFromStatus w.cluster n with
          | some sid =>
            if idOpt = some sid then (.ok true, w)
            else
              let w1 := w.emit (.getSecurityGroup sid)
              match w1.cloud.findSecurityGroup sid with
              | none =>
                  (.error "error failed getting security group by name for security group rule", w1)
              | some d => if d.crn = crn then (.ok true, w1) else (.ok false, w1)
          | none =>
            let w1 := w.emit (.getSecurityGroupByName n)
            match w1.cloud.findSecurityGroupByName n with
            | none =>
                (.error "error failed getting security group by name for security group rule", w1)
            | some d => if d.crn = crn then (.ok true, w1) else (.ok false, w1)
    else (.ok false, w)
  | .other => if remote.remoteType = .any then (.ok true, w) else (.ok false, w)

def checkSecurityGroupRuleProtocolAll (w : World)
    (remote : VPCSecurityGroupRuleRemote) (existingRemote : CloudRuleRemote) :
    Except String Bool × World :=
  checkSecurityGroupRulePrototypeRemote w remote existingRemote

def checkSecurityGroupRuleProtocolIcmp (w : World)
    (proto : VPCSecurityGroupRulePrototype) (remote : VPCSecurityGroupRuleRemote)
    (code : Option Int) (icmpTyp : Option Int) (existingRemote : CloudRuleRemote) :
    Except String Bool × World :=
  match checkSecurityGroupRulePrototypeRemote w remote existingRemote with
  | (.error e, w1) => (.error e, w1)
  | (.ok false, w1) => (.ok false, w1)
  | (.ok true, w1) =>
    match proto.icmpCode, proto.icmpType with
    | some c, some t =>
      match code, icmpTyp with
      | some c2, some t2 =>
          if c = c2 ∧ t = t2 then (.ok true, w1) else (.ok false, w1)
      | _, _ => (.ok false, w1)
    | _, _ => (.ok false, w1)

def checkSecurityGroupRuleProtocolTcpudp (w : World)
    (proto : VPCSecurityGroupRulePrototype) (remote : VPCSecurityGroupRuleRemote)
    (rProtocol : String) (portMin : Option Int) (portMax : Option Int)
    (existingRemote : CloudRuleRemote) : Except String Bool × World :=
  if protocolString proto.protocol ≠ rProtocol then (.ok false, w)
  else
    match checkSecurityGroupRulePrototypeRemote w remote existingRemote with
    | (.error e, w1) => (.error e, w1)
    | (.ok false, w1) => (.ok false, w1)
    | (.ok true, w1) =>
      match proto.portRange with
      | some pr =>
        match portMin, portMax with
        | some mn, some mx =>
            if pr.minimumPort = mn ∧ pr.maximumPort = mx then (.ok true, w1)
            else (.ok false, w1)
        | _, _ => (.ok false, w1)
      | none => (.ok false, w1)

/-- The inner loop of `findOrCreateSecurityGroupRule`: scan the live rules for
one matching the declared rule's direction, protocol family and remote. -/
def securityGroupRuleMatchLoop (w : World) (direction : VPCSecurityGroupRuleDirection)
    (proto : VPCSecurityGroupRulePrototype) (remote : VPCSecurityGroupRuleRemote)
    (rules : List CloudRule) : Except String Bool × World :=
  match rules with
  | [] => (.ok false, w)
  | r :: rest =>
    match r with
    | .all dir rRemote =>
      if proto.protocol ≠ .all then
        securityGroupRuleMatchLoop w direction proto remote rest
      else if directionString direction ≠ dir then
        securityGroupRuleMatchLoop w direction proto remote rest
      else
        match checkSecurityGroupRuleProtocolAll w remote rRemote with
        | (.error e, w1) => (.error e, w1)
        | (.ok true, w1) => (.ok true, w1)
        | (.ok false, w1) => securityGroupRuleMatchLoop w1 direction proto remote rest
    | .icmp dir code icmpTyp rRemote =>
      if proto.protocol ≠ .icmp then
        securityGroupRuleMatchLoop w direction proto remote rest
      else if directionString direction ≠ dir then
        securityGroupRuleMatchLoop w direction proto remote rest
      else
        match checkSecurityGroupRuleProtocolIcmp w proto remote code icmpTyp rRemote with
        | (.error e, w1) => (.error e, w1)
        | (.ok true, w1) => (.ok true, w1)
        | (.ok false, w1) => securityGroupRuleMatchLoop w1 direction proto remote rest
    | .tcpudp dir rProtocol portMin portMax rRemote =>
      if proto.protocol ≠ .tcp ∧ proto.protocol ≠ .udp then
        securityGroupRuleMatchLoop w direction proto remote rest
      else if directionString direction ≠ dir then
        securityGroupRuleMatchLoop w direction proto remote rest
      else
        match checkSecurityGroupRuleProtocolTcpudp w proto remote rProtocol portMin portMax rRemote with
        | (.error e, w1) => (.error e, w1)
        | (.ok true, w1) => (.ok true, w1)
        | (.ok false, w1) => securityGroupRuleMatchLoop w1 direction proto remote rest

/-! ### Rule creation -/

structure SecurityGroupRuleRemotePrototype where
  cidrBlock : Option String
  address : Option String
  crn : Option String
deriving DecidableEq, Repr

def createSecurityGroupRuleRemote (w : World) (remote : VPCSecurityGroupRuleRemote) :
    Except String SecurityGroupRuleRemotePrototype × World :=
  match remote.remoteType with
  | .any => (.ok { cidrBlock := some CIDRBlockAny, address := none, crn := none }, w)
  | .cidr =>
    match remote.cidrSubnetName with
    | none => (.error "panic: nil cidr subnet name", w)
    | some n =>
      let w1 := w.emit (.getSubnetByName n)
      match w1.cloud.findSubnetByName n with
      | none =>
          (.error "error failed lookup of subnet during security group rule remote creation", w1)
      | some sd =>
        match sd.ipv4CIDRBlock with
        | none =>
            (.error "error failed lookup of subnet during security group rule remote creation, no Ipv4CIDRBlock", w1)
        | some _ => (.ok { cidrBlock := sd.ipv4CIDRBlock, address := none, crn := none }, w1)
  | .address => (.ok { cidrBlock := none, address := remote.address, crn := none }, w)
  | .sg =>
    match remote.securityGroupName with
    | none => (.error "panic: nil security group name", w)
    | some n =>
      let w1 := w.emit (.getSecurityGroupByName n)
      match w1.cloud.findSecurityGroupByName n with
      | none =>
          (.error "error failed lookup of security group during security group rule remote creation", w1)
      | some d => (.ok { cidrBlock := none, address := none, crn := some d.crn }, w1)

/-- How the mock cloud echoes a created rule remote prototype as a live remote. -/
def remotePrototypeToCloud (p : SecurityGroupRuleRemotePrototype) : CloudRuleRemote :=
  match p.cidrBlock with
  | some cb => .cidr cb
  | none =>
    match p.address with
    | some a => .ip a
    | none =>
      match p.crn with
      | some crn => .sgRef none none crn
      | none => .other

def createSecurityGroupRule (w : World) (securityGroupID : String)
    (rule : VPCSecurityGroupRule) (remote : VPCSecurityGroupRuleRemote) :
    Except String Unit × World :=
  let protoOpt :=
    match rule.direction with
    | .inbound => rule.source
    | .outbound => rule.destination
  match createSecurityGroupRuleRemote w remote with
  | (.error e, w1) => (.error e, w1)
  | (.ok p, w1) =>
    match protoOpt with
    | none => (.error "panic: nil rule prototype", w1)
    | some proto =>
      let rRemote := remotePrototypeToCloud p
      let newRule : CloudRule :=
        match proto.protocol with
        | .all => .all (directionString rule.direction) rRemote
        | .icmp =>
          match proto.icmpCode, proto.icmpType with
          | some c, some t =>
              .icmp (directionString rule.direction) (some c) (some t) rRemote
          | _, _ => .icmp (directionString rule.direction) none none rRemote
        | .tcp =>
          match proto.portRange with
          | some pr =>
              .tcpudp (directionString rule.direction) "tcp"
                (some pr.minimumPort) (some pr.maximumPort) rRemote
          | none => .tcpudp (directionString rule.direction) "tcp" none none rRemote
        | .udp =>
          match proto.portRange with
          | some pr =>
              .tcpudp (directionString rule.direction) "udp"
                (some pr.minimumPort) (some pr.maximumPort) rRemote
          | none => .tcpudp (directionString rule.direction) "udp" none none rRemote
      let w2 := w1.emit (.createSecurityGroupRule securityGroupID)
      (.ok (), w2.withCloud (w2.cloud.addRule securityGroupID newRule))

def createSecurityGroupRuleLoop (w : World) (securityGroupID : String)
    (rule : VPCSecurityGroupRule) (remotes : List VPCSecurityGroupRuleRemote) :
    Except String Unit × World :=
  match remotes with
  | [] => (.ok (), w)
  | r :: rest =>
    match createSecurityGroupRule w securityGroupID rule r with
    | (.error e, w1) => (.error ("error failed creating security group rule: " ++ e), w1)
    | (.ok _, w1) => createSecurityGroupRuleLoop w1 securityGroupID rule rest

def createSecurityGroupRuleAllRemotes (w : World) (securityGroupID : String)
    (rule : VPCSecurityGroupRule) : Except String Unit × World :=
  let remotesOpt :=
    match rule.direction with
    | .inbound => rule.source.map (fun p => p.remotes)
    | .outbound => rule.destination.map (fun p => p.remotes)
  match remotesOpt with
  | none => (.error "panic: nil rule prototype", w)
  | some remotes => createSecurityGroupRuleLoop w securityGroupID rule remotes

/-- The outer loop of `findOrCreateSecurityGroupRule` over the declared remotes:
create a rule for each remote with no matching live rule. -/
def findOrCreateRemoteLoop (w : World) (securityGroupID : String)
    (rule : VPCSecurityGroupRule) (proto : VPCSecurityGroupRulePrototype)
    (existingRules : List CloudRule) (remotes : List VPCSecurityGroupRuleRemote)
    (allMatch : Bool) : Except String Bool × World :=
  match remotes with
  | [] => (.ok allMatch, w)
  | remote :: rest =>
    match securityGroupRuleMatchLoop w rule.direction proto remote existingRules with
    | (.error e, w1) => (.error e, w1)
    | (.ok true, w1) =>
        findOrCreateRemoteLoop w1 securityGroupID rule proto existingRules rest allMatch
    | (.ok false, w1) =>
      match createSecurityGroupRule w1 securityGroupID rule remote with
      | (.error e, w2) => (.error e, w2)
      | (.ok _, w2) =>
          findOrCreateRemoteLoop w2 securityGroupID rule proto existingRules rest false

def findOrCreateSecurityGroupRule (w : World) (securityGroupID : String)
    (rule : VPCSecurityGroupRule) (existingRules : List CloudRule) :
    Except String Bool × World :=
  let protoOpt :=
    match rule.direction with
    | .inbound => rule.source
    | .outbound => rule.destination
  match protoOpt with
  | none => (.error "panic: nil rule prototype", w)
  | some proto =>
      findOrCreateRemoteLoop w securityGroupID rule proto existingRules proto.remotes true

def reconcileSecurityGroupRule (w : World) (securityGroupID : String)
    (rule : VPCSecurityGroupRule) : Except String Bool × World :=
  let w1 := w.emit (.listSecurityGroupRules securityGroupID)
  match w1.cloud.findSecurityGroup securityGroupID with
  | none =>
      (.error ("error failed listing security group rules during reconcile of security group id=" ++ securityGroupID), w1)
  | some g =>
    if g.rules = [] then
      match createSecurityGroupRuleAllRemotes w1 securityGroupID rule with
      | (.error e, w2) => (.error e, w2)
      | (.ok _, w2) => (.ok true, w2)
    else
      match findOrCreateSecurityGroupRule w1 securityGroupID rule g.rules with
      | (.error e, w2) => (.error e, w2)
      | (.ok true, w2) => (.ok false, w2)
      | (.ok false, w2) => (.ok true, w2)

def reconcileSecurityGroupRulesLoop (w : World) (securityGroupID : String)
    (rules : List VPCSecurityGroupRule) (requeue : Bool) :
    Except String Bool × World :=
  match rules with
  | [] => (.ok requeue, w)
  | r :: rest =>
    match reconcileSecurityGroupRule w securityGroupID r with
    | (.error e, w1) => (.error e, w1)
    | (.ok rq, w1) => reconcileSecurityGroupRulesLoop w1 securityGroupID rest (requeue || rq)

def reconcileSecurityGroupRules (w : World) (sg : VPCSecurityGroup) :
    Except String Bool × World :=
  match getSecurityGroupID w.cluster sg with
  | none => (.ok true, w)
  | some gid =>
    if sg.rules = [] then (.ok false, w)
    else reconcileSecurityGroupRulesLoop w gid sg.rules false

def reconcileSecurityGroupsPhase1 (w : World) (sgs : List VPCSecurityGroup)
    (requeue : Bool) : Except String Bool × World :=
  match sgs with
  | [] => (.ok requeue, w)
  | g :: rest =>
    match reconcileSecurityGroup w g with
    | (.error e, w1) => (.error ("error failed reonciling security groups: " ++ e), w1)
    | (.ok rq, w1) => reconcileSecurityGroupsPhase1 w1 rest (requeue || rq)

def reconcileSecurityGroupsPhase2 (w : World) (sgs : List VPCSecurityGroup)
    (requeue : Bool) : Except String Bool × World :=
  match sgs with
  | [] => (.ok requeue, w)
  | g :: rest =>
    match reconcileSecurityGroupRules w g with
    | (.error e, w1) =>
        (.error ("error failed reconciling security group rules: " ++ e), w1)
    | (.ok rq, w1) => reconcileSecurityGroupsPhase2 w1 rest (requeue || rq)

def ReconcileSecurityGroups (w : World) : Except String Bool × World :=
  match w.cluster.spec.network with
  | none => (.error "panic: nil network spec", w)
  | some nw =>
    if nw.securityGroups = [] then (.ok false, w)
    else
      match reconcileSecurityGroupsPhase1 w nw.securityGroups false with
      | (.error e, w1) => (.error e, w1)
      | (.ok true, w1) => (.ok true, w1)
      | (.ok false, w1) =>
        match reconcileSecurityGroupsPhase2 w1 nw.securityGroups false with
        | (.error e, w2) => (.error e, w2)
        | (.ok rq, w2) => (.ok rq, w2)

/-! ## Subnet ID collection -/

def GetSubnetID (w : World) (n : String) : Except String (Option String) × World :=
  let fromStatus : Option String :=
    match w.cluster.status.networkStatus with
    | some ns =>
      match lookupA ns.controlPlaneSubnets n with
      | some st => some st.id
      | none => (lookupA ns.workerSubnets n).map (fun st => st.id)
    | none => none
  match fromStatus with
  | some i => (.ok (some i), w)
  | none =>
    let w1 := w.emit (.getSubnetByName n)
    match w1.cloud.findSubnetByName n with
    | some sd => (.ok (some sd.id), w1)
    | none => (.ok none, w1)

def dedupInsert (l : List String) (i : String) : List String :=
  if i ∈ l then l else l ++ [i]

def checkSubnets (w : World) (subnets : List Subnet) (acc : List String) :
    Except String (List String) × World :=
  match subnets with
  | [] => (.ok acc, w)
  | s :: rest =>
    match s.id with
    | some i => checkSubnets w rest (dedupInsert acc i)
    | none =>
      match s.name with
      | some n =>
        match GetSubnetID w n with
        | (.error e, w1) => (.error e, w1)
        | (.ok none, w1) => checkSubnets w1 rest acc
        | (.ok (some i), w1) => checkSubnets w1 rest (dedupInsert acc i)
      | none => checkSubnets w rest acc

/-- `s.GetSubnetIDs()`: all subnet IDs, duplicates removed; status first, else spec. -/
def GetSubnetIDs (w : World) : Except String (List String) × World :=
  match w.cluster.status.networkStatus with
  | some ns =>
    let acc := ns.controlPlaneSubnets.foldl (fun a p => dedupInsert a p.2.id) []
    (.ok (ns.workerSubnets.foldl (fun a p => dedupInsert a p.2.id) acc), w)
  | none =>
    match w.cluster.spec.network with
    | some nw =>
      match checkSubnets w nw.controlPlaneSubnets [] with
      | (.error e, w1) => (.error e, w1)
      | (.ok acc, w1) =>
        match checkSubnets w1 nw.workerSubnets acc with
        | (.error e, w2) => (.error e, w2)
        | (.ok acc2, w2) => (.ok acc2, w2)
    | none => (.ok [], w)

/-! ## Load balancers -/

def checkLoadBalancerStatus (st : String) : Bool := st = lbCreatePendingState

def checkLoadBalancer (w : World) (lb : VPCLoadBalancerSpec) :
    Except String (Option VPCLoadBalancerStatus) × World :=
  let w1 := w.emit (.getLoadBalancerByName lb.name)
  match w1.cloud.findLoadBalancerByName lb.name with
  | none => (.ok none, w1)
  | some f =>
      (.ok (some { id := some f.id, state := f.provisioningStatus,
                   hostname := some f.hostname, controllerCreated := none }), w1)

def createLoadBalancer (w : World) (lb : VPCLoadBalancerSpec) :
    Except String VPCLoadBalancerStatus × World :=
  match GetResourceGroupID w with
  | (.error e, w1) => (.error e, w1)
  | (.ok rgid, w1) =>
    if rgid = "" then
      (.error "error getting resource group id for resource group, id is empty", w1)
    else
      match GetSubnetIDs w1 with
      | (.error _, w2) => (.error "error collecting subnet IDs for load balancer creation", w2)
      | (.ok subnetIDs, w2) =>
        let apiPort := APIServerPort w2.cluster
        let hm : LBHealthMonitor := { delay := 5, maxRetries := 2, timeout := 2, typ := "tcp" }
        let primaryPoolName := lb.name ++ "-pool-" ++ toString apiPort
        let pools : List LBPool :=
          { algorithm := "round_robin", healthMonitor := hm,
            name := primaryPoolName, protocol := "tcp" } ::
          lb.additionalListeners.map (fun al =>
            { algorithm := "round_robin", healthMonitor := hm,
              name := "additional-pool-" ++ toString al.port, protocol := "tcp" })
        let listeners : List LBListener :=
          { protocol := "tcp", port := apiPort, defaultPoolName := primaryPoolName } ::
          lb.additionalListeners.map (fun al =>
            { protocol := "tcp", port := al.port,
              defaultPoolName := "additional-pool-" ++ toString al.port })
        let opts : LBCreateOptions :=
          { isPublic := lb.public = some true, name := lb.name, resourceGroup := rgid,
            subnets := subnetIDs, pools := pools, listeners := listeners }
        let w3 := w2.emit (.createLoadBalancer opts)
        let lc := w3.cloud.mkLoadBalancer lb.name
        (.ok { id := some lc.1.id, state := lc.1.provisioningStatus,
               hostname := some lc.1.hostname, controllerCreated := some true },
          w3.withCloud lc.2)

def reconcileLoadBalancersLoop (w : World) (lbs : List VPCLoadBalancerSpec) :
    Except String Bool × World :=
  match lbs with
  | [] => (.ok false, w)
  | lb :: rest =>
    let idw : Except String (Option String) × World :=
      match lb.id with
      | some i => (.ok (some i), w)
      | none =>
        if lb.name = "" then (.error "error load balancer has no name or id", w)
        else
          let w1 := w.emit (.getLoadBalancerByName lb.name)
          match w1.cloud.findLoadBalancerByName lb.name with
          | some f => (.ok (some f.id), w1)
          | none => (.ok none, w1)
    match idw with
    | (.error e, w1) => (.error e, w1)
    | (.ok (some i), w1) =>
      let cachedActive : Bool :=
        match w1.cluster.status.networkStatus with
        | some ns =>
          match lookupA ns.loadBalancers i with
          | some st => st.state = lbActiveState
          | none => false
        | none => false
      if cachedActive then reconcileLoadBalancersLoop w1 rest
      else
        let w2 := w1.emit (.getLoadBalancer i)
        match w2.cloud.findLoadBalancer i with
        | none => (.error "error fetching load balancer", w2)
        | some f =>
          if checkLoadBalancerStatus f.provisioningStatus then (.ok true, w2)
          else
            reconcileLoadBalancersLoop
              (SetLoadBalancerStatusAt w2 f.id
                { id := some f.id, state := f.provisioningStatus,
                  hostname := some f.hostname, controllerCreated := none }) rest
    | (.ok none, w1) =>
      match checkLoadBalancer w1 lb with
      | (.error e, w2) => (.error e, w2)
      | (.ok (some st), w2) =>
        match st.id with
        | none => (.error "panic: nil load balancer id", w2)
        | some key => reconcileLoadBalancersLoop (SetLoadBalancerStatusAt w2 key st) rest
      | (.ok none, w2) =>
        match createLoadBalancer w2 lb with
        | (.error e, w3) => (.error e, w3)
        | (.ok st, w3) =>
          match st.id with
          | none => (.error "panic: nil load balancer id", w3)
          | some key => (.ok true, SetLoadBalancerStatusAt w3 key st)

def ReconcileLoadBalancers (w : World) : Except String Bool × World :=
  match w.cluster.spec.network with
  | none => (.error "panic: nil network spec", w)
  | some nw =>
    if nw.loadBalancers = [] then
      (.error "error no load balancers specified for cluster", w)
    else reconcileLoadBalancersLoop w nw.loadBalancers

/-! ## The orchestrator -/

/-- Modelled from the spec: the orchestrator (the cluster controller) that
invokes the sub-reconcilers is not part of the provided sources.  Per §2 of the
spec it invokes, in dependency order, ResourceGroup → VPC → Custom Image →
Subnets → Security Groups → Load Balancers; any error aborts the pass, and any
sub-reconciler requeue makes the whole pass requeue. -/
def reconcilePass (w : World) : Except String Bool × World :=
  match ReconcileResourceGroup w with
  | (.error e, w1) => (.error e, w1)
  | (.ok _, w1) =>
    match ReconcileVPC w1 with
    | (.error e, w2) => (.error e, w2)
    | (.ok r1, w2) =>
      match ReconcileVPCCustomImage w2 with
      | (.error e, w3) => (.error e, w3)
      | (.ok r2, w3) =>
        match ReconcileSubnets w3 with
        | (.error e, w4) => (.error e, w4)
        | (.ok r3, w4) =>
          match ReconcileSecurityGroups w4 with
          | (.error e, w5) => (.error e, w5)
          | (.ok r4, w5) =>
            match ReconcileLoadBalancers w5 with
            | (.error e, w6) => (.error e, w6)
            | (.ok r5, w6) => (.ok (r1 || r2 || r3 || r4 || r5), w6)

/-! ## Trace observations -/

def isCreateCall : CloudCall → Bool
  | .createVPC _ _ => true
  | .createSubnet _ => true
  | .createPublicGateway _ => true
  | .createSecurityGroup _ => true
  | .createImage _ _ _ => true
  | .createLoadBalancer _ => true
  | _ => false

/-- Number of resource-create calls (rule creation and tagging excluded). -/
def createCount (t : List CloudCall) : Nat := (t.filter isCreateCall).length

def isRuleCreateCall : CloudCall → Bool
  | .createSecurityGroupRule _ => true
  | _ => false

def ruleCreateCount (t : List CloudCall) : Nat := (t.filter isRuleCreateCall).length

def isRuleCall : CloudCall → Bool
  | .createSecurityGroupRule _ => true
  | .listSecurityGroupRules _ => true
  | _ => false

/-- Number of rule-phase calls: rule listings and rule creations. -/
def ruleCallCount (t : List CloudCall) : Nat := (t.filter isRuleCall).length

def isGetSubnetById : CloudCall → Bool
  | .getSubnet _ => true
  | _ => false

def isSGCreateCall : CloudCall → Bool
  | .createSecurityGroup _ => true
  | _ => false

def isErr {α : Type} : Except String α → Bool
  | .error _ => true
  | .ok _ => false

/-- Well-formed mock cloud: every image carries a non-empty identifier
(the real service always returns identifiers). -/
def Cloud.WF (c : Cloud) : Prop := ∀ img ∈ c.images, img.id ≠ ""

def World.resetTrace (w : World) : World := { w with trace := [] }

/-- Number of security-group-create calls in a trace. -/
def sgCreateCount (t : List CloudCall) : Nat := (t.filter isSGCreateCall).length

/-- The cached VPC status entry of a world. -/
def vpcStatusOf (w : World) : Option VPCResourceStatus :=
  match w.cluster.status.networkStatus with
  | some ns => ns.vpc
  | none => none

/-- The rule prototype selected by a rule's direction (`Source` when inbound,
`Destination` when outbound), as repeatedly dereferenced by the source. -/
def rulePrototype (rule : VPCSecurityGroupRule) : Option VPCSecurityGroupRulePrototype :=
  match rule.direction with
  | .inbound => rule.source
  | .outbound => rule.destination

/-- The resource groups carried by the `createImage` calls of a trace. -/
def createImageRGs (t : List CloudCall) : List (Option String) :=
  t.filterMap (fun c =>
    match c with
    | .createImage _ rg _ => some rg
    | _ => none)

/-- The request payloads of the `createLoadBalancer` calls of a trace. -/
def lbCreateOptsOf (t : List CloudCall) : List LBCreateOptions :=
  t.filterMap (fun c =>
    match c with
    | .createLoadBalancer opts => some opts
    | _ => none)

/-- The health monitor the source actually sends on every pool. -/
def sourceHealthMonitor : LBHealthMonitor :=
  { delay := 5, maxRetries := 2, timeout := 2, typ := "tcp" }

/-- The health monitor the spec sentence describes. -/
def specHealthMonitor : LBHealthMonitor :=
  { delay := 60, maxRetries := 5, timeout := 30, typ := "https" }

/-! ## Concrete fixtures for witnesses, counterexamples and scenarios -/

def fxCloud : Cloud :=
  { resourceGroups := [{ id := "rg-1", name := "rgA" }], vpcs := [], subnets := [],
    publicGateways := [], securityGroups := [], loadBalancers := [], images := [],
    zones := ["z1"], tags := [] }

def fxSecurityGroupSpec : VPCSecurityGroup := { id := none, name := some "sg1", rules := [] }

def fxLoadBalancerSpec : VPCLoadBalancerSpec :=
  { name := "lb1", id := none, public := some true,
    additionalListeners := [{ port := 22623 }] }

def fxNetwork : VPCNetworkSpec :=
  { workerSubnets := [], controlPlaneSubnets := [],
    loadBalancers := [fxLoadBalancerSpec],
    resourceGroup := none, securityGroups := [fxSecurityGroupSpec],
    vpc := some { id := none, name := some "c1-vpc" } }

def fxImage : ImageSpec :=
  { name := "img1", cosInstance := some "ci", cosBucket := some "cb",
    cosBucketRegion := none, cosObject := some "co",
    operatingSystem := some "rhel", resourceGroup := none }

def fxCluster : IBMVPCCluster :=
  { name := "c1", apiServerPort := none,
    spec := { region := "r1", resourceGroup := "rgA", image := some fxImage,
              network := some fxNetwork },
    status := { imageStatus := none, networkStatus := none, resourceGroup := none } }

def fxWorld : World := { cluster := fxCluster, cloud := fxCloud, trace := [] }

/-- The world after the first VPC pass, with the cloud now reporting the VPC
`available`, ready for the second pass of the scenario. -/
def fxVPCWorld2 : World :=
  let w1 := (ReconcileVPC fxWorld).2
  { w1 with trace := [],
            cloud := { w1.cloud with
              vpcs := w1.cloud.vpcs.map (fun v => { v with status := "available" }) } }

def fxSubnetS1 : CloudSubnet :=
  { id := "sid1", name := "s1", status := "available", crn := "crns1", zone := "z1",
    ipv4CIDRBlock := some "10.0.0.0/24" }

def fxReadyNS : VPCNetworkStatus :=
  { emptyNetworkStatus with
    controlPlaneSubnets := [("s1", { id := "sid1", name := "s1", ready := true })] }

def fxReadyCluster : IBMVPCCluster :=
  { fxCluster with status :=
    { imageStatus := none, networkStatus := some fxReadyNS, resourceGroup := none } }

def fxC4World : World :=
  { cluster := fxReadyCluster, cloud := { fxCloud with subnets := [fxSubnetS1] },
    trace := [] }

def fxC4Subnet : Subnet := { id := none, name := some "s1", zone := none }

def fxC5Network : VPCNetworkSpec := { fxNetwork with resourceGroup := some "rgNet" }

def fxC5Cluster : IBMVPCCluster :=
  { fxCluster with spec := { fxCluster.spec with network := some fxC5Network } }

def fxC5Cloud : Cloud :=
  { fxCloud with resourceGroups :=
      [{ id := "rg-1", name := "rgA" }, { id := "rg-net", name := "rgNet" }] }

def fxC5World : World := { cluster := fxC5Cluster, cloud := fxC5Cloud, trace := [] }

def fxDupRGWorld : World :=
  { cluster := fxCluster,
    cloud := { fxCloud with resourceGroups :=
        [{ id := "a", name := "dup" }, { id := "b", name := "dup" }] },
    trace := [] }

def fxLiveTcpAnyRule : CloudRule :=
  .tcpudp "inbound" "tcp" (some 6443) (some 6443) (.ip "0.0.0.0/0")

def fxSGA : CloudSecurityGroup :=
  { id := "sga", name := "sg-a", crn := "crnsga", rules := [fxLiveTcpAnyRule] }

def fxRemoteAny : VPCSecurityGroupRuleRemote :=
  { remoteType := .any, address := none, cidrSubnetName := none,
    securityGroupName := none }

def fxRemoteAddr : VPCSecurityGroupRuleRemote :=
  { remoteType := .address, address := some "10.1.1.1", cidrSubnetName := none,
    securityGroupName := none }

def fxProtoTcp6443 (rs : List VPCSecurityGroupRuleRemote) : VPCSecurityGroupRulePrototype :=
  { protocol := .tcp, portRange := some { minimumPort := 6443, maximumPort := 6443 },
    icmpCode := none, icmpType := none, remotes := rs }

def fxRuleInbound (rs : List VPCSecurityGroupRuleRemote) : VPCSecurityGroupRule :=
  { direction := .inbound, source := some (fxProtoTcp6443 rs), destination := none }

def fxProtoTcpNoRange (rs : List VPCSecurityGroupRuleRemote) : VPCSecurityGroupRulePrototype :=
  { protocol := .tcp, portRange := none, icmpCode := none, icmpType := none,
    remotes := rs }

def fxRuleInboundNoRange (rs : List VPCSecurityGroupRuleRemote) : VPCSecurityGroupRule :=
  { direction := .inbound, source := some (fxProtoTcpNoRange rs), destination := none }

def fxC2World : World :=
  { cluster := fxCluster, cloud := { fxCloud with securityGroups := [fxSGA] },
    trace := [] }

def fxC7Network : VPCNetworkSpec :=
  { fxNetwork with
    controlPlaneSubnets := [{ id := none, name := none, zone := none }],
    workerSubnets := [{ id := none, name := some "w1", zone := some "z1" }] }

def fxC7World : World :=
  { cluster := { fxCluster with spec := { fxCluster.spec with network := some fxC7Network } },
    cloud := fxCloud, trace := [] }

def fxC7OkNetwork : VPCNetworkSpec :=
  { fxNetwork with
    controlPlaneSubnets := [{ id := none, name := some "s1", zone := none }],
    workerSubnets := [{ id := none, name := some "s1", zone := none }] }

def fxC7OkWorld : World :=
  { cluster := { fxReadyCluster with spec :=
      { fxReadyCluster.spec with network := some fxC7OkNetwork } },
    cloud := { fxCloud with subnets := [fxSubnetS1] }, trace := [] }

def fxC6Status : VPCLoadBalancerStatus :=
  { id := some "idrg-1sid1", state := "create_pending",
    hostname := some "hostidrg-1sid1", controllerCreated := some true }

def fxCreatedImage : CloudImage :=
  { id := "idrg-1", name := "img1", status := "pending", crn := "crnidrg-1" }

/-- Trace fragments consisting solely of subnet name lookups. -/
def onlySubnetNameLookups (t : List CloudCall) : Prop :=
  ∀ c ∈ t, ∃ n, c = CloudCall.getSubnetByName n

/-- A security group with its rule list forgotten. -/
def stripRules (g : CloudSecurityGroup) : CloudSecurityGroup := { g with rules := [] }

/-- Two clouds that differ only in the rule lists of their security groups
(as produced by `Cloud.addRule`) and agree on subnets. -/
def RulesOnlyDiff (c c2 : Cloud) : Prop :=
  c2.subnets = c.subnets ∧
  c2.securityGroups.map stripRules = c.securityGroups.map stripRules

deriving instance DecidableEq for Except

/-- Observation: the declared remote has no matching live rule (the match loop,
run from world `w` over the given live rules, does not return `ok true`). -/
def ruleRemoteUnmatched (w : World) (d : VPCSecurityGroupRuleDirection)
    (proto : VPCSecurityGroupRulePrototype) (rules : List CloudRule)
    (r : VPCSecurityGroupRuleRemote) : Bool :=
  decide ((securityGroupRuleMatchLoop w d proto r rules).1 ≠ Except.ok true)

/-! # Helper lemmas -/

theorem tagResource_eq (w : World) (tag crn : String) :
    TagResource w tag crn =
      (.ok (), { w with
        cloud := { w.cloud with tags :=
          if w.cloud.tags.contains tag then w.cloud.tags else w.cloud.tags ++ [tag] },
        trace := w.trace ++
          (if w.cloud.tags.contains tag then
            [.getTagByName tag, .attachTag tag crn]
          else
            [.getTagByName tag, .createTag tag, .attachTag tag crn]) }) := by
  simp only [TagResource, CheckTagExists, World.emit, World.withCloud]
  split <;> simp_all

theorem createImageRGs_append (a b : List CloudCall) :
    createImageRGs (a ++ b) = createImageRGs a ++ createImageRGs b := by
  simp [createImageRGs, List.filterMap_append]

theorem serviceGetRG_snd (w : World) (n : String) :
    (serviceGetResourceGroupByName w n).2 =
      { w with trace := w.trace ++ [.listResourceGroupsByName n] } := by
  simp only [serviceGetResourceGroupByName, World.emit]
  split <;> rfl

theorem getResourceGroupIDLookup_snd (w : World) :
    ∃ n, (getResourceGroupIDLookup w).2 =
      { w with trace := w.trace ++ [.listResourceGroupsByName n] } := by
  simp only [getResourceGroupIDLookup]
  rcases h : serviceGetResourceGroupByName w
    (if w.cluster.spec.resourceGroup = "" then w.cluster.name
     else w.cluster.spec.resourceGroup) with ⟨res, w1⟩
  have h2 : w1 = { w with trace := w.trace ++ [.listResourceGroupsByName
      (if w.cluster.spec.resourceGroup = "" then w.cluster.name
       else w.cluster.spec.resourceGroup)] } := by
    have := serviceGetRG_snd w (if w.cluster.spec.resourceGroup = "" then w.cluster.name
       else w.cluster.spec.resourceGroup)
    rw [h] at this
    exact this
  cases res <;> simp only [h] <;> exact ⟨_, by rw [h2]⟩

theorem getResourceGroupID_frame (w : World) :
    (GetResourceGroupID w).2.cluster = w.cluster ∧
    (GetResourceGroupID w).2.cloud = w.cloud ∧
    ((GetResourceGroupID w).2.trace = w.trace ∨
      ∃ n, (GetResourceGroupID w).2.trace = w.trace ++ [.listResourceGroupsByName n]) := by
  simp only [GetResourceGroupID]
  have hlk : (getResourceGroupIDLookup w).2.cluster = w.cluster ∧
      (getResourceGroupIDLookup w).2.cloud = w.cloud ∧
      ((getResourceGroupIDLookup w).2.trace = w.trace ∨
        ∃ n, (getResourceGroupIDLookup w).2.trace = w.trace ++ [.listResourceGroupsByName n]) := by
    obtain ⟨n, hn⟩ := getResourceGroupIDLookup_snd w
    rw [hn]
    exact ⟨rfl, rfl, Or.inr ⟨n, rfl⟩⟩
  split
  · split
    · exact ⟨rfl, rfl, Or.inl rfl⟩
    · exact hlk
  · exact hlk

theorem getSubnetID_frame (w : World) (n : String) :
    (GetSubnetID w n).2 = w ∨ (GetSubnetID w n).2 = w.emit (.getSubnetByName n) := by
  simp only [GetSubnetID]
  split
  · exact Or.inl rfl
  · split <;> exact Or.inr rfl

theorem getSubnetID_cc (w : World) (n : String) :
    (GetSubnetID w n).2.cluster = w.cluster ∧ (GetSubnetID w n).2.cloud = w.cloud := by
  rcases getSubnetID_frame w n with h | h <;> rw [h] <;> exact ⟨rfl, rfl⟩

theorem getSubnetID_val_congr (w w2 : World) (n : String)
    (hcl : w2.cluster = w.cluster) (hcd : w2.cloud = w.cloud) :
    (GetSubnetID w2 n).1 = (GetSubnetID w n).1 := by
  simp only [GetSubnetID, hcl, hcd, World.emit]
  split
  · rfl
  · split <;> rfl

theorem checkSubnets_congr (subs : List Subnet) : ∀ (w w2 : World) (acc : List String),
    w2.cluster = w.cluster → w2.cloud = w.cloud →
    (checkSubnets w2 subs acc).1 = (checkSubnets w subs acc).1 := by
  induction subs with
  | nil => intro w w2 acc hcl hcd; rfl
  | cons s rest ih =>
    intro w w2 acc hcl hcd
    simp only [checkSubnets]
    cases s.id with
    | some i => exact ih w w2 (dedupInsert acc i) hcl hcd
    | none =>
      cases hn : s.name with
      | none => exact ih w w2 acc hcl hcd
      | some n =>
        have hval := getSubnetID_val_congr w w2 n hcl hcd
        have hu1 := getSubnetID_cc w n
        have hu2 := getSubnetID_cc w2 n
        rcases h1 : GetSubnetID w n with ⟨r1, u1⟩
        rcases h2 : GetSubnetID w2 n with ⟨r2, u2⟩
        rw [h1, h2] at hval
        rw [h1] at hu1
        rw [h2] at hu2
        dsimp only at hval hu1 hu2
        dsimp only
        rw [h1, h2, hval]
        cases r1 with
        | error e => rfl
        | ok o =>
          cases o with
          | none =>
            exact ih u1 u2 acc (hu2.1.trans (hcl.trans hu1.1.symm))
              (hu2.2.trans (hcd.trans hu1.2.symm))
          | some i =>
            exact ih u1 u2 (dedupInsert acc i) (hu2.1.trans (hcl.trans hu1.1.symm))
              (hu2.2.trans (hcd.trans hu1.2.symm))

theorem getSubnetIDs_val_congr (w w2 : World)
    (hcl : w2.cluster = w.cluster) (hcd : w2.cloud = w.cloud) :
    (GetSubnetIDs w2).1 = (GetSubnetIDs w).1 := by
  simp only [GetSubnetIDs, hcl, hcd]
  split
  · rfl
  · split
    · rename_i nw hnw
      have h1 := checkSubnets_congr nw.controlPlaneSubnets w w2 [] hcl hcd
      have hcc1 : ∀ (v : World) (subs : List Subnet) (acc : List String),
          (checkSubnets v subs acc).2.cluster = v.cluster ∧
          (checkSubnets v subs acc).2.cloud = v.cloud := by
        intro v subs
        induction subs generalizing v with
        | nil => intro acc; exact ⟨rfl, rfl⟩
        | cons s rest ih =>
          intro acc
          simp only [checkSubnets]
          cases s.id with
          | some i => dsimp only; exact ih v _
          | none =>
            cases s.name with
            | none => dsimp only; exact ih v _
            | some n =>
              dsimp only
              have hgu := getSubnetID_cc v n
              rcases hg : GetSubnetID v n with ⟨r, u⟩
              rw [hg] at hgu
              dsimp only at hgu
              cases r with
              | error e => exact ⟨hgu.1, hgu.2⟩
              | ok o =>
                cases o with
                | none => exact ⟨(ih u _).1.trans hgu.1, (ih u _).2.trans hgu.2⟩
                | some i => exact ⟨(ih u _).1.trans hgu.1, (ih u _).2.trans hgu.2⟩
      rcases hc1 : checkSubnets w nw.controlPlaneSubnets [] with ⟨r1, u1⟩
      rcases hc2 : checkSubnets w2 nw.controlPlaneSubnets [] with ⟨r2, u2⟩
      have hr : r2 = r1 := by rw [hc1, hc2] at h1; exact h1
      subst hr
      have hv1 := hcc1 w nw.controlPlaneSubnets []
      have hv2 := hcc1 w2 nw.controlPlaneSubnets []
      rw [hc1] at hv1
      rw [hc2] at hv2
      dsimp only at hv1 hv2
      cases r2 with
      | error e => rfl
      | ok acc =>
        have h2 := checkSubnets_congr nw.workerSubnets u1 u2 acc
          (hv2.1.trans (hcl.trans hv1.1.symm)) (hv2.2.trans (hcd.trans hv1.2.symm))
        rcases hd1 : checkSubnets u1 nw.workerSubnets acc with ⟨s1, v1⟩
        rcases hd2 : checkSubnets u2 nw.workerSubnets acc with ⟨s2, v2⟩
        rw [hd1, hd2] at h2
        dsimp only at h2
        dsimp only
        rw [hd1, hd2, h2]
        cases s1 <;> rfl
    · rfl

theorem dedupInsert_nodup (l : List String) (i : String) (h : l.Nodup) :
    (dedupInsert l i).Nodup := by
  unfold dedupInsert
  split
  · exact h
  · rename_i hmem
    simp [List.nodup_append, h, hmem]

theorem foldl_dedupInsert_nodup {α : Type} (f : α → String) (l : List α) :
    ∀ acc : List String, acc.Nodup →
      (l.foldl (fun a p => dedupInsert a (f p)) acc).Nodup := by
  induction l with
  | nil => intro acc h; exact h
  | cons x rest ih =>
    intro acc h
    exact ih (dedupInsert acc (f x)) (dedupInsert_nodup acc (f x) h)

theorem checkSubnets_nodup (subs : List Subnet) :
    ∀ (w : World) (acc : List String) (ids : List String) (w1 : World),
      checkSubnets w subs acc = (.ok ids, w1) → acc.Nodup → ids.Nodup := by
  induction subs with
  | nil =>
    intro w acc ids w1 h hacc
    simp only [checkSubnets, Prod.mk.injEq, Except.ok.injEq] at h
    obtain ⟨rfl, rfl⟩ := h
    exact hacc
  | cons s rest ih =>
    intro w acc ids w1 h hacc
    simp only [checkSubnets] at h
    cases hid : s.id with
    | some i =>
      rw [hid] at h
      dsimp only at h
      exact ih w _ ids w1 h (dedupInsert_nodup acc i hacc)
    | none =>
      rw [hid] at h
      cases hn : s.name with
      | none =>
        rw [hn] at h
        dsimp only at h
        exact ih w acc ids w1 h hacc
      | some n =>
        rw [hn] at h
        dsimp only at h
        rcases hg : GetSubnetID w n with ⟨r, u⟩
        rw [hg] at h
        cases r with
        | error e => simp at h
        | ok o =>
          cases o with
          | none => exact ih u acc ids w1 h hacc
          | some i => exact ih u _ ids w1 h (dedupInsert_nodup acc i hacc)

theorem getSubnetIDs_nodup (w : World) (ids : List String) (w1 : World)
    (h : GetSubnetIDs w = (.ok ids, w1)) : ids.Nodup := by
  simp only [GetSubnetIDs] at h
  split at h
  · rename_i ns hns
    simp only [Prod.mk.injEq, Except.ok.injEq] at h
    obtain ⟨rfl, rfl⟩ := h
    exact foldl_dedupInsert_nodup (fun p => p.2.id) ns.workerSubnets _
      (foldl_dedupInsert_nodup (fun p => p.2.id) ns.controlPlaneSubnets [] List.nodup_nil)
  · split at h
    · rename_i nw hnw
      rcases hc : checkSubnets w nw.controlPlaneSubnets [] with ⟨r1, u1⟩
      rw [hc] at h
      cases r1 with
      | error e => simp at h
      | ok acc =>
        dsimp only at h
        rcases hd : checkSubnets u1 nw.workerSubnets acc with ⟨r2, u2⟩
        rw [hd] at h
        cases r2 with
        | error e => simp at h
        | ok ids2 =>
          simp only [Prod.mk.injEq, Except.ok.injEq] at h
          obtain ⟨rfl, rfl⟩ := h
          exact checkSubnets_nodup nw.workerSubnets u1 acc ids2 u2 hd
            (checkSubnets_nodup nw.controlPlaneSubnets w [] acc u1 hc List.nodup_nil)
    · simp only [Prod.mk.injEq, Except.ok.injEq] at h
      obtain ⟨rfl, rfl⟩ := h
      exact List.nodup_nil

theorem checkSubnets_cc (subs : List Subnet) : ∀ (v : World) (acc : List String),
    (checkSubnets v subs acc).2.cluster = v.cluster ∧
    (checkSubnets v subs acc).2.cloud = v.cloud := by
  induction subs with
  | nil => intro v acc; exact ⟨rfl, rfl⟩
  | cons s rest ih =>
    intro v acc
    simp only [checkSubnets]
    cases s.id with
    | some i => dsimp only; exact ih v _
    | none =>
      cases s.name with
      | none => dsimp only; exact ih v _
      | some n =>
        dsimp only
        have hgu := getSubnetID_cc v n
        rcases hg : GetSubnetID v n with ⟨r, u⟩
        rw [hg] at hgu
        dsimp only at hgu
        cases r with
        | error e => exact ⟨hgu.1, hgu.2⟩
        | ok o =>
          cases o with
          | none => exact ⟨(ih u _).1.trans hgu.1, (ih u _).2.trans hgu.2⟩
          | some i => exact ⟨(ih u _).1.trans hgu.1, (ih u _).2.trans hgu.2⟩

theorem checkSubnets_trace (subs : List Subnet) : ∀ (v : World) (acc : List String),
    ∃ t, (checkSubnets v subs acc).2.trace = v.trace ++ t ∧ onlySubnetNameLookups t := by
  induction subs with
  | nil => intro v acc; exact ⟨[], by simp [checkSubnets], by intro c hc; simp at hc⟩
  | cons s rest ih =>
    intro v acc
    simp only [checkSubnets]
    cases s.id with
    | some i => dsimp only; exact ih v _
    | none =>
      cases s.name with
      | none => dsimp only; exact ih v _
      | some n =>
        dsimp only
        have hgf := getSubnetID_frame v n
        rcases hg : GetSubnetID v n with ⟨r, u⟩
        rw [hg] at hgf
        dsimp only at hgf
        have hu : u.trace = v.trace ∨ u.trace = v.trace ++ [.getSubnetByName n] := by
          rcases hgf with h | h <;> rw [h]
          · exact Or.inl rfl
          · exact Or.inr rfl
        have hstep : ∀ (acc2 : List String), ∃ t,
            (checkSubnets u rest acc2).2.trace = v.trace ++ t ∧ onlySubnetNameLookups t := by
          intro acc2
          obtain ⟨t, ht, hP⟩ := ih u acc2
          rcases hu with h | h
          · exact ⟨t, by rw [ht, h], hP⟩
          · refine ⟨.getSubnetByName n :: t, ?_, ?_⟩
            · rw [ht, h]; simp
            · intro c hcm
              rcases List.mem_cons.1 hcm with hcm | hcm
              · exact ⟨n, hcm⟩
              · exact hP c hcm
        cases r with
        | error e =>
          rcases hu with h | h
          · exact ⟨[], by simp [h], by intro c hc; simp at hc⟩
          · exact ⟨[.getSubnetByName n], by simp [h], by
              intro c hc; simp at hc; exact ⟨n, hc⟩⟩
        | ok o =>
          cases o with
          | none => exact hstep acc
          | some i => exact hstep (dedupInsert acc i)

theorem getSubnetIDs_frame (w : World) :
    (GetSubnetIDs w).2.cluster = w.cluster ∧
    (GetSubnetIDs w).2.cloud = w.cloud ∧
    ∃ t, (GetSubnetIDs w).2.trace = w.trace ++ t ∧ onlySubnetNameLookups t := by
  simp only [GetSubnetIDs]
  split
  · exact ⟨rfl, rfl, [], by simp, by intro c hc; simp at hc⟩
  · split
    · rename_i nw hnw
      have hc1 := checkSubnets_cc nw.controlPlaneSubnets w []
      have ht1 := checkSubnets_trace nw.controlPlaneSubnets w []
      rcases hc : checkSubnets w nw.controlPlaneSubnets [] with ⟨r1, u1⟩
      rw [hc] at hc1 ht1
      dsimp only at hc1 ht1
      cases r1 with
      | error e => exact ⟨hc1.1, hc1.2, ht1⟩
      | ok acc =>
        dsimp only
        have hc2 := checkSubnets_cc nw.workerSubnets u1 acc
        have ht2 := checkSubnets_trace nw.workerSubnets u1 acc
        rcases hd : checkSubnets u1 nw.workerSubnets acc with ⟨r2, u2⟩
        rw [hd] at hc2 ht2
        dsimp only at hc2 ht2
        obtain ⟨t1, ht1e, hP1⟩ := ht1
        obtain ⟨t2, ht2e, hP2⟩ := ht2
        have htr : u2.trace = w.trace ++ (t1 ++ t2) := by
          rw [ht2e, ht1e, List.append_assoc]
        have hPP : onlySubnetNameLookups (t1 ++ t2) := by
          intro c hc2m
          rcases List.mem_append.1 hc2m with h | h
          · exact hP1 c h
          · exact hP2 c h
        cases r2 with
        | error e => exact ⟨hc2.1.trans hc1.1, hc2.2.trans hc1.2, t1 ++ t2, htr, hPP⟩
        | ok ids => exact ⟨hc2.1.trans hc1.1, hc2.2.trans hc1.2, t1 ++ t2, htr, hPP⟩
    · exact ⟨rfl, rfl, [], by simp, by intro c hc; simp at hc⟩

theorem lbCreateOptsOf_append (a b : List CloudCall) :
    lbCreateOptsOf (a ++ b) = lbCreateOptsOf a ++ lbCreateOptsOf b := by
  simp [lbCreateOptsOf, List.filterMap_append]

theorem lbCreateOptsOf_of_subnet_lookups (t : List CloudCall)
    (h : onlySubnetNameLookups t) : lbCreateOptsOf t = [] := by
  rw [lbCreateOptsOf, List.filterMap_eq_nil_iff]
  intro c hc
  obtain ⟨n, rfl⟩ := h c hc
  rfl

theorem RulesOnlyDiff.refl (c : Cloud) : RulesOnlyDiff c c := ⟨rfl, rfl⟩

theorem RulesOnlyDiff.trans {a b c : Cloud} (h1 : RulesOnlyDiff a b)
    (h2 : RulesOnlyDiff b c) : RulesOnlyDiff a c :=
  ⟨h2.1.trans h1.1, h2.2.trans h1.2⟩

theorem RulesOnlyDiff.addRule (c : Cloud) (gid : String) (r : CloudRule) :
    RulesOnlyDiff c (c.addRule gid r) := by
  refine ⟨rfl, ?_⟩
  simp only [Cloud.addRule, List.map_map]
  refine List.map_congr_left ?_
  intro g _
  simp only [Function.comp_apply, stripRules]
  split <;> rfl

theorem find_strip_congr (p : CloudSecurityGroup → Bool)
    (hp : ∀ g, p (stripRules g) = p g) :
    ∀ (l l2 : List CloudSecurityGroup),
      l2.map stripRules = l.map stripRules →
      (l2.find? p).map stripRules = (l.find? p).map stripRules := by
  intro l
  induction l with
  | nil =>
    intro l2 h
    have : l2 = [] := by simpa using h
    subst this
    rfl
  | cons g rest ih =>
    intro l2 h
    cases l2 with
    | nil => simp at h
    | cons g2 rest2 =>
      simp only [List.map_cons, List.cons.injEq] at h
      obtain ⟨hg, hr⟩ := h
      simp only [List.find?]
      have hpg : p g2 = p g := by
        rw [← hp g2, ← hp g, hg]
      rw [hpg]
      cases hv : p g with
      | true => simp [hg]
      | false => exact ih rest2 hr

theorem findSecurityGroupByName_crn_congr (c c2 : Cloud) (h : RulesOnlyDiff c c2)
    (n : String) :
    (c2.findSecurityGroupByName n).map (fun g => g.crn) =
      (c.findSecurityGroupByName n).map (fun g => g.crn) ∧
    (c2.findSecurityGroupByName n).isSome = (c.findSecurityGroupByName n).isSome := by
  have := find_strip_congr (fun g => g.name = n) (fun g => rfl)
    c.securityGroups c2.securityGroups h.2
  simp only [Cloud.findSecurityGroupByName]
  constructor
  · have h2 := congrArg (fun o => Option.map (fun g => g.crn) o) this
    simpa [Option.map_map, Function.comp_def, stripRules] using h2
  · have h2 := congrArg (fun o => o.isSome) this
    simpa using h2

theorem findSecurityGroup_crn_congr (c c2 : Cloud) (h : RulesOnlyDiff c c2)
    (i : String) :
    (c2.findSecurityGroup i).map (fun g => g.crn) =
      (c.findSecurityGroup i).map (fun g => g.crn) ∧
    (c2.findSecurityGroup i).isSome = (c.findSecurityGroup i).isSome := by
  have := find_strip_congr (fun g => g.id = i) (fun g => rfl)
    c.securityGroups c2.securityGroups h.2
  simp only [Cloud.findSecurityGroup]
  constructor
  · have h2 := congrArg (fun o => Option.map (fun g => g.crn) o) this
    simpa [Option.map_map, Function.comp_def, stripRules] using h2
  · have h2 := congrArg (fun o => o.isSome) this
    simpa using h2

theorem checkRemote_frame (w : World) (remote : VPCSecurityGroupRuleRemote)
    (er : CloudRuleRemote) :
    (checkSecurityGroupRulePrototypeRemote w remote er).2.cluster = w.cluster ∧
    (checkSecurityGroupRulePrototypeRemote w remote er).2.cloud = w.cloud ∧
    ruleCreateCount (checkSecurityGroupRulePrototypeRemote w remote er).2.trace =
      ruleCreateCount w.trace := by
  simp only [checkSecurityGroupRulePrototypeRemote, World.emit]
  repeat'
    first
      | exact ⟨rfl, rfl, rfl⟩
      | (refine ⟨rfl, rfl, ?_⟩
         simp [ruleCreateCount, List.filter_append, isRuleCreateCall])
      | split

theorem checkRemote_val_congr (w w2 : World) (remote : VPCSecurityGroupRuleRemote)
    (er : CloudRuleRemote)
    (hcl : w2.cluster = w.cluster) (hcd : RulesOnlyDiff w.cloud w2.cloud) :
    (checkSecurityGroupRulePrototypeRemote w2 remote er).1 =
      (checkSecurityGroupRulePrototypeRemote w remote er).1 := by
  simp only [checkSecurityGroupRulePrototypeRemote, World.emit]
  cases er with
  | cidr cb =>
    by_cases hrt : remote.remoteType = VPCSecurityGroupRuleRemoteType.cidr
    · simp only [if_pos hrt]
      cases hn : remote.securityGroupName with
      | none => rfl
      | some n =>
        have hsub : w2.cloud.findSubnetByName n = w.cloud.findSubnetByName n := by
          simp [Cloud.findSubnetByName, hcd.1]
        dsimp only
        rw [hsub]
        cases w.cloud.findSubnetByName n with
        | none => rfl
        | some sd =>
          dsimp only
          cases sd.ipv4CIDRBlock with
          | none => rfl
          | some cb2 => dsimp only; split <;> rename_i hh <;> simp [hh]
    · simp only [if_neg hrt]
  | ip a =>
    dsimp only
    cases remote.remoteType with
    | address =>
      dsimp only
      cases remote.address with
      | none => rfl
      | some a2 => dsimp only; split <;> rename_i hh <;> simp [hh]
    | any => dsimp only; split <;> rename_i hh <;> simp [hh]
    | cidr => rfl
    | sg => rfl
  | sgRef nameOpt idOpt crn =>
    by_cases hrt : remote.remoteType = VPCSecurityGroupRuleRemoteType.sg
    · simp only [if_pos hrt]
      cases hn : remote.securityGroupName with
      | none => rfl
      | some n =>
        dsimp only
        by_cases hname : nameOpt = some n
        · simp only [if_pos hname]
        · simp only [if_neg hname]
          rw [hcl]
          cases hst : getSecurityGroupIDFromStatus w.cluster n with
          | some sid =>
            dsimp only
            by_cases hio : idOpt = some sid
            · simp only [if_pos hio]
            · simp only [if_neg hio]
              have hc := findSecurityGroup_crn_congr w.cloud w2.cloud hcd sid
              rcases h1 : w.cloud.findSecurityGroup sid with _ | d
              · rcases h2 : w2.cloud.findSecurityGroup sid with _ | d2
                · rfl
                · rw [h1, h2] at hc; simp at hc
              · rcases h2 : w2.cloud.findSecurityGroup sid with _ | d2
                · rw [h1, h2] at hc; simp at hc
                · rw [h1, h2] at hc
                  have hcrn : d2.crn = d.crn := by simpa using hc.1
                  dsimp only
                  rw [hcrn]
                  split <;> rename_i hh <;> simp [hh]
          | none =>
            dsimp only
            have hc := findSecurityGroupByName_crn_congr w.cloud w2.cloud hcd n
            rcases h1 : w.cloud.findSecurityGroupByName n with _ | d
            · rcases h2 : w2.cloud.findSecurityGroupByName n with _ | d2
              · rfl
              · rw [h1, h2] at hc; simp at hc
            · rcases h2 : w2.cloud.findSecurityGroupByName n with _ | d2
              · rw [h1, h2] at hc; simp at hc
              · rw [h1, h2] at hc
                have hcrn : d2.crn = d.crn := by simpa using hc.1
                dsimp only
                rw [hcrn]
                split <;> rename_i hh <;> simp [hh]
    · simp only [if_neg hrt]
  | other => dsimp only; split <;> rename_i hh <;> simp [hh]

theorem checkIcmp_frame (w : World) (p : VPCSecurityGroupRulePrototype)
    (r : VPCSecurityGroupRuleRemote) (code icmpTyp : Option Int) (er : CloudRuleRemote) :
    (checkSecurityGroupRuleProtocolIcmp w p r code icmpTyp er).2.cluster = w.cluster ∧
    (checkSecurityGroupRuleProtocolIcmp w p r code icmpTyp er).2.cloud = w.cloud ∧
    ruleCreateCount (checkSecurityGroupRuleProtocolIcmp w p r code icmpTyp er).2.trace =
      ruleCreateCount w.trace := by
  simp only [checkSecurityGroupRuleProtocolIcmp]
  have hf := checkRemote_frame w r er
  rcases hr : checkSecurityGroupRulePrototypeRemote w r er with ⟨res, w1⟩
  rw [hr] at hf
  dsimp only at hf
  cases res with
  | error e => exact hf
  | ok b =>
    cases b with
    | false => exact hf
    | true =>
      dsimp only
      rcases p.icmpCode with _ | c <;> rcases p.icmpType with _ | t <;>
        try exact hf
      rcases code with _ | c2 <;> rcases icmpTyp with _ | t2 <;>
        try exact hf
      dsimp only
      split <;> exact hf

theorem checkTcpudp_frame (w : World) (p : VPCSecurityGroupRulePrototype)
    (r : VPCSecurityGroupRuleRemote) (rp : String) (pmin pmax : Option Int)
    (er : CloudRuleRemote) :
    (checkSecurityGroupRuleProtocolTcpudp w p r rp pmin pmax er).2.cluster = w.cluster ∧
    (checkSecurityGroupRuleProtocolTcpudp w p r rp pmin pmax er).2.cloud = w.cloud ∧
    ruleCreateCount (checkSecurityGroupRuleProtocolTcpudp w p r rp pmin pmax er).2.trace =
      ruleCreateCount w.trace := by
  simp only [checkSecurityGroupRuleProtocolTcpudp]
  split
  · exact ⟨rfl, rfl, rfl⟩
  · have hf := checkRemote_frame w r er
    rcases hr : checkSecurityGroupRulePrototypeRemote w r er with ⟨res, w1⟩
    rw [hr] at hf
    dsimp only at hf
    cases res with
    | error e => exact hf
    | ok b =>
      cases b with
      | false => exact hf
      | true =>
        dsimp only
        rcases p.portRange with _ | pr
        · exact hf
        · rcases pmin with _ | mn <;> rcases pmax with _ | mx <;> try exact hf
          dsimp only
          split <;> exact hf

theorem checkIcmp_val_congr (w w2 : World) (p : VPCSecurityGroupRulePrototype)
    (r : VPCSecurityGroupRuleRemote) (code icmpTyp : Option Int) (er : CloudRuleRemote)
    (hcl : w2.cluster = w.cluster) (hcd : RulesOnlyDiff w.cloud w2.cloud) :
    (checkSecurityGroupRuleProtocolIcmp w2 p r code icmpTyp er).1 =
      (checkSecurityGroupRuleProtocolIcmp w p r code icmpTyp er).1 := by
  simp only [checkSecurityGroupRuleProtocolIcmp]
  have hv := checkRemote_val_congr w w2 r er hcl hcd
  rcases h1 : checkSecurityGroupRulePrototypeRemote w r er with ⟨r1, u1⟩
  rcases h2 : checkSecurityGroupRulePrototypeRemote w2 r er with ⟨r2, u2⟩
  rw [h1, h2] at hv
  dsimp only at hv
  rw [hv]
  cases r1 with
  | error e => rfl
  | ok b =>
    cases b with
    | false => rfl
    | true =>
      dsimp only
      rcases p.icmpCode with _ | c <;> rcases p.icmpType with _ | t <;> try rfl
      rcases code with _ | c2 <;> rcases icmpTyp with _ | t2 <;> try rfl
      dsimp only
      split <;> rfl

theorem checkTcpudp_val_congr (w w2 : World) (p : VPCSecurityGroupRulePrototype)
    (r : VPCSecurityGroupRuleRemote) (rp : String) (pmin pmax : Option Int)
    (er : CloudRuleRemote)
    (hcl : w2.cluster = w.cluster) (hcd : RulesOnlyDiff w.cloud w2.cloud) :
    (checkSecurityGroupRuleProtocolTcpudp w2 p r rp pmin pmax er).1 =
      (checkSecurityGroupRuleProtocolTcpudp w p r rp pmin pmax er).1 := by
  simp only [checkSecurityGroupRuleProtocolTcpudp]
  split
  · rfl
  · have hv := checkRemote_val_congr w w2 r er hcl hcd
    rcases h1 : checkSecurityGroupRulePrototypeRemote w r er with ⟨r1, u1⟩
    rcases h2 : checkSecurityGroupRulePrototypeRemote w2 r er with ⟨r2, u2⟩
    rw [h1, h2] at hv
    dsimp only at hv
    rw [hv]
    cases r1 with
    | error e => rfl
    | ok b =>
      cases b with
      | false => rfl
      | true =>
        dsimp only
        rcases p.portRange with _ | pr
        · rfl
        · rcases pmin with _ | mn <;> rcases pmax with _ | mx <;> try rfl
          dsimp only
          split <;> rfl

theorem matchLoop_frame (d : VPCSecurityGroupRuleDirection)
    (proto : VPCSecurityGroupRulePrototype) (remote : VPCSecurityGroupRuleRemote) :
    ∀ (rules : List CloudRule) (w : World),
    (securityGroupRuleMatchLoop w d proto remote rules).2.cluster = w.cluster ∧
    (securityGroupRuleMatchLoop w d proto remote rules).2.cloud = w.cloud ∧
    ruleCreateCount (securityGroupRuleMatchLoop w d proto remote rules).2.trace =
      ruleCreateCount w.trace := by
  intro rules
  induction rules with
  | nil => intro w; exact ⟨rfl, rfl, rfl⟩
  | cons r rest ih =>
    intro w
    cases r with
    | all dir rRemote =>
      simp only [securityGroupRuleMatchLoop]
      by_cases h1 : proto.protocol ≠ VPCSecurityGroupRuleProtocol.all
      · simp only [if_pos h1]; exact ih w
      · simp only [if_neg h1]
        by_cases h2 : directionString d ≠ dir
        · simp only [if_pos h2]; exact ih w
        · simp only [if_neg h2]
          have hf := checkRemote_frame w remote rRemote
          rcases hc : checkSecurityGroupRuleProtocolAll w remote rRemote with ⟨res, w1⟩
          rw [show checkSecurityGroupRuleProtocolAll = checkSecurityGroupRulePrototypeRemote from rfl] at hc
          rw [hc] at hf
          dsimp only at hf
          cases res with
          | error e => exact hf
          | ok b =>
            cases b with
            | true => exact hf
            | false =>
              dsimp only
              have := ih w1
              exact ⟨this.1.trans hf.1, this.2.1.trans hf.2.1, this.2.2.trans hf.2.2⟩
    | icmp dir code icmpTyp rRemote =>
      simp only [securityGroupRuleMatchLoop]
      by_cases h1 : proto.protocol ≠ VPCSecurityGroupRuleProtocol.icmp
      · simp only [if_pos h1]; exact ih w
      · simp only [if_neg h1]
        by_cases h2 : directionString d ≠ dir
        · simp only [if_pos h2]; exact ih w
        · simp only [if_neg h2]
          have hf := checkIcmp_frame w proto remote code icmpTyp rRemote
          rcases hc : checkSecurityGroupRuleProtocolIcmp w proto remote code icmpTyp rRemote with ⟨res, w1⟩
          rw [hc] at hf
          dsimp only at hf
          cases res with
          | error e => exact hf
          | ok b =>
            cases b with
            | true => exact hf
            | false =>
              dsimp only
              have := ih w1
              exact ⟨this.1.trans hf.1, this.2.1.trans hf.2.1, this.2.2.trans hf.2.2⟩
    | tcpudp dir rProtocol portMin portMax rRemote =>
      simp only [securityGroupRuleMatchLoop]
      by_cases h1 : proto.protocol ≠ VPCSecurityGroupRuleProtocol.tcp ∧
          proto.protocol ≠ VPCSecurityGroupRuleProtocol.udp
      · simp only [if_pos h1]; exact ih w
      · simp only [if_neg h1]
        by_cases h2 : directionString d ≠ dir
        · simp only [if_pos h2]; exact ih w
        · simp only [if_neg h2]
          have hf := checkTcpudp_frame w proto remote rProtocol portMin portMax rRemote
          rcases hc : checkSecurityGroupRuleProtocolTcpudp w proto remote rProtocol portMin portMax rRemote with ⟨res, w1⟩
          rw [hc] at hf
          dsimp only at hf
          cases res with
          | error e => exact hf
          | ok b =>
            cases b with
            | true => exact hf
            | false =>
              dsimp only
              have := ih w1
              exact ⟨this.1.trans hf.1, this.2.1.trans hf.2.1, this.2.2.trans hf.2.2⟩

theorem matchLoop_val_congr (d : VPCSecurityGroupRuleDirection)
    (proto : VPCSecurityGroupRulePrototype) (remote : VPCSecurityGroupRuleRemote) :
    ∀ (rules : List CloudRule) (w w2 : World),
    w2.cluster = w.cluster → RulesOnlyDiff w.cloud w2.cloud →
    (securityGroupRuleMatchLoop w2 d proto remote rules).1 =
      (securityGroupRuleMatchLoop w d proto remote rules).1 := by
  intro rules
  induction rules with
  | nil => intro w w2 hcl hcd; rfl
  | cons r rest ih =>
    intro w w2 hcl hcd
    cases r with
    | all dir rRemote =>
      simp only [securityGroupRuleMatchLoop]
      by_cases h1 : proto.protocol ≠ VPCSecurityGroupRuleProtocol.all
      · simp only [if_pos h1]; exact ih w w2 hcl hcd
      · simp only [if_neg h1]
        by_cases h2 : directionString d ≠ dir
        · simp only [if_pos h2]; exact ih w w2 hcl hcd
        · simp only [if_neg h2]
          have hv := checkRemote_val_congr w w2 remote rRemote hcl hcd
          have hf1 := checkRemote_frame w remote rRemote
          have hf2 := checkRemote_frame w2 remote rRemote
          rcases hc1 : checkSecurityGroupRuleProtocolAll w remote rRemote with ⟨r1, u1⟩
          rcases hc2 : checkSecurityGroupRuleProtocolAll w2 remote rRemote with ⟨r2, u2⟩
          rw [show checkSecurityGroupRuleProtocolAll = checkSecurityGroupRulePrototypeRemote from rfl] at hc1 hc2
          rw [hc1] at hv hf1
          rw [hc2] at hv hf2
          dsimp only at hv hf1 hf2
          rw [hv]
          cases r1 with
          | error e => rfl
          | ok b =>
            cases b with
            | true => rfl
            | false =>
              dsimp only
              refine ih u1 u2 ?_ ?_
              · rw [hf2.1, hf1.1, hcl]
              · rw [hf2.2.1, hf1.2.1]; exact hcd
    | icmp dir code icmpTyp rRemote =>
      simp only [securityGroupRuleMatchLoop]
      by_cases h1 : proto.protocol ≠ VPCSecurityGroupRuleProtocol.icmp
      · simp only [if_pos h1]; exact ih w w2 hcl hcd
      · simp only [if_neg h1]
        by_cases h2 : directionString d ≠ dir
        · simp only [if_pos h2]; exact ih w w2 hcl hcd
        · simp only [if_neg h2]
          have hv := checkIcmp_val_congr w w2 proto remote code icmpTyp rRemote hcl hcd
          have hf1 := checkIcmp_frame w proto remote code icmpTyp rRemote
          have hf2 := checkIcmp_frame w2 proto remote code icmpTyp rRemote
          rcases hc1 : checkSecurityGroupRuleProtocolIcmp w proto remote code icmpTyp rRemote with ⟨r1, u1⟩
          rcases hc2 : checkSecurityGroupRuleProtocolIcmp w2 proto remote code icmpTyp rRemote with ⟨r2, u2⟩
          rw [hc1] at hv hf1
          rw [hc2] at hv hf2
          dsimp only at hv hf1 hf2
          rw [hv]
          cases r1 with
          | error e => rfl
          | ok b =>
            cases b with
            | true => rfl
            | false =>
              dsimp only
              refine ih u1 u2 ?_ ?_
              · rw [hf2.1, hf1.1, hcl]
              · rw [hf2.2.1, hf1.2.1]; exact hcd
    | tcpudp dir rProtocol portMin portMax rRemote =>
      simp only [securityGroupRuleMatchLoop]
      by_cases h1 : proto.protocol ≠ VPCSecurityGroupRuleProtocol.tcp ∧
          proto.protocol ≠ VPCSecurityGroupRuleProtocol.udp
      · simp only [if_pos h1]; exact ih w w2 hcl hcd
      · simp only [if_neg h1]
        by_cases h2 : directionString d ≠ dir
        · simp only [if_pos h2]; exact ih w w2 hcl hcd
        · simp only [if_neg h2]
          have hv := checkTcpudp_val_congr w w2 proto remote rProtocol portMin portMax rRemote hcl hcd
          have hf1 := checkTcpudp_frame w proto remote rProtocol portMin portMax rRemote
          have hf2 := checkTcpudp_frame w2 proto remote rProtocol portMin portMax rRemote
          rcases hc1 : checkSecurityGroupRuleProtocolTcpudp w proto remote rProtocol portMin portMax rRemote with ⟨r1, u1⟩
          rcases hc2 : checkSecurityGroupRuleProtocolTcpudp w2 proto remote rProtocol portMin portMax rRemote with ⟨r2, u2⟩
          rw [hc1] at hv hf1
          rw [hc2] at hv hf2
          dsimp only at hv hf1 hf2
          rw [hv]
          cases r1 with
          | error e => rfl
          | ok b =>
            cases b with
            | true => rfl
            | false =>
              dsimp only
              refine ih u1 u2 ?_ ?_
              · rw [hf2.1, hf1.1, hcl]
              · rw [hf2.2.1, hf1.2.1]; exact hcd

theorem createRuleRemote_frame (w : World) (remote : VPCSecurityGroupRuleRemote) :
    (createSecurityGroupRuleRemote w remote).2.cluster = w.cluster ∧
    (createSecurityGroupRuleRemote w remote).2.cloud = w.cloud ∧
    ruleCreateCount (createSecurityGroupRuleRemote w remote).2.trace =
      ruleCreateCount w.trace := by
  simp only [createSecurityGroupRuleRemote, World.emit]
  repeat'
    first
      | exact ⟨rfl, rfl, rfl⟩
      | (refine ⟨rfl, rfl, ?_⟩
         simp [ruleCreateCount, List.filter_append, isRuleCreateCall])
      | split

theorem createRule_spec (w : World) (gid : String) (rule : VPCSecurityGroupRule)
    (remote : VPCSecurityGroupRuleRemote) (u : Unit) (w' : World)
    (hrun : createSecurityGroupRule w gid rule remote = (.ok u, w')) :
    w'.cluster = w.cluster ∧ RulesOnlyDiff w.cloud w'.cloud ∧
    ruleCreateCount w'.trace = ruleCreateCount w.trace + 1 := by
  have hf := createRuleRemote_frame w remote
  simp only [createSecurityGroupRule] at hrun
  rcases hc : createSecurityGroupRuleRemote w remote with ⟨res, w1⟩
  rw [hc] at hrun hf
  dsimp only at hrun hf
  cases res with
  | error e => simp at hrun
  | ok p =>
    dsimp only at hrun
    rcases hp : (match rule.direction with
      | VPCSecurityGroupRuleDirection.inbound => rule.source
      | VPCSecurityGroupRuleDirection.outbound => rule.destination) with _ | proto
    · rw [hp] at hrun; simp at hrun
    · rw [hp] at hrun
      dsimp only at hrun
      simp only [Prod.mk.injEq, Except.ok.injEq] at hrun
      obtain ⟨-, hw⟩ := hrun
      subst hw
      refine ⟨hf.1, ?_, ?_⟩
      · simp only [World.withCloud, World.emit]
        rw [hf.2.1]
        exact RulesOnlyDiff.addRule w.cloud gid _
      · simp only [World.withCloud, World.emit, ruleCreateCount,
          List.filter_append, List.length_append]
        simp only [ruleCreateCount] at hf
        rw [hf.2.2]
        simp [isRuleCreateCall]

theorem ruleRemoteUnmatched_congr (w w2 : World) (d : VPCSecurityGroupRuleDirection)
    (proto : VPCSecurityGroupRulePrototype) (rules : List CloudRule)
    (hcl : w2.cluster = w.cluster) (hcd : RulesOnlyDiff w.cloud w2.cloud) :
    ruleRemoteUnmatched w2 d proto rules = ruleRemoteUnmatched w d proto rules := by
  funext r
  simp only [ruleRemoteUnmatched]
  rw [matchLoop_val_congr d proto r rules w w2 hcl hcd]

theorem findOrCreateRemoteLoop_spec (gid : String) (rule : VPCSecurityGroupRule)
    (proto : VPCSecurityGroupRulePrototype) (existingRules : List CloudRule) :
    ∀ (remotes : List VPCSecurityGroupRuleRemote) (w : World) (allMatch b : Bool)
      (w' : World),
    findOrCreateRemoteLoop w gid rule proto existingRules remotes allMatch =
      (.ok b, w') →
    w'.cluster = w.cluster ∧ RulesOnlyDiff w.cloud w'.cloud ∧
    ruleCreateCount w'.trace = ruleCreateCount w.trace +
      remotes.countP (ruleRemoteUnmatched w rule.direction proto existingRules) ∧
    b = (allMatch &&
      remotes.all (fun r => ! ruleRemoteUnmatched w rule.direction proto existingRules r)) := by
  intro remotes
  induction remotes with
  | nil =>
    intro w allMatch b w' hrun
    simp only [findOrCreateRemoteLoop, Prod.mk.injEq, Except.ok.injEq] at hrun
    obtain ⟨rfl, rfl⟩ := hrun
    simp [RulesOnlyDiff.refl]
  | cons remote rest ih =>
    intro w allMatch b w' hrun
    simp only [findOrCreateRemoteLoop] at hrun
    have hfm := matchLoop_frame rule.direction proto remote existingRules w
    rcases hm : securityGroupRuleMatchLoop w rule.direction proto remote existingRules
      with ⟨mres, w1⟩
    rw [hm] at hrun hfm
    dsimp only at hrun hfm
    have hdiff1 : RulesOnlyDiff w.cloud w1.cloud := by
      rw [hfm.2.1]; exact RulesOnlyDiff.refl w.cloud
    cases mres with
    | error e => simp at hrun
    | ok mb =>
      cases mb with
      | true =>
        dsimp only at hrun
        have ih1 := ih w1 allMatch b w' hrun
        have hcong := ruleRemoteUnmatched_congr w w1 rule.direction proto existingRules
          hfm.1 hdiff1
        rw [hcong] at ih1
        have hhead : ruleRemoteUnmatched w rule.direction proto existingRules remote = false := by
          simp [ruleRemoteUnmatched, hm]
        refine ⟨ih1.1.trans hfm.1, hdiff1.trans ih1.2.1, ?_, ?_⟩
        · rw [ih1.2.2.1, hfm.2.2, List.countP_cons, hhead]
          simp
        · rw [ih1.2.2.2, List.all_cons, hhead]
          simp
      | false =>
        dsimp only at hrun
        rcases hc : createSecurityGroupRule w1 gid rule remote with ⟨cres, w2⟩
        rw [hc] at hrun
        cases cres with
        | error e => simp at hrun
        | ok u =>
          have hcs := createRule_spec w1 gid rule remote u w2 hc
          have hdiff2 : RulesOnlyDiff w.cloud w2.cloud := hdiff1.trans hcs.2.1
          have hcl2 : w2.cluster = w.cluster := hcs.1.trans hfm.1
          have ih1 := ih w2 false b w' hrun
          have hcong := ruleRemoteUnmatched_congr w w2 rule.direction proto existingRules
            hcl2 hdiff2
          rw [hcong] at ih1
          have hhead : ruleRemoteUnmatched w rule.direction proto existingRules remote = true := by
            simp [ruleRemoteUnmatched, hm]
          refine ⟨ih1.1.trans hcl2, hdiff2.trans ih1.2.1, ?_, ?_⟩
          · rw [ih1.2.2.1, hcs.2.2, hfm.2.2, List.countP_cons, hhead]
            simp
            omega
          · rw [ih1.2.2.2, List.all_cons, hhead]
            simp

theorem reconcileSGRule_spec (w : World) (gid : String) (rule : VPCSecurityGroupRule)
    (proto : VPCSecurityGroupRulePrototype) (g : CloudSecurityGroup) (rq : Bool)
    (w' : World)
    (hproto : (match rule.direction with
      | VPCSecurityGroupRuleDirection.inbound => rule.source
      | VPCSecurityGroupRuleDirection.outbound => rule.destination) = some proto)
    (hg : w.cloud.findSecurityGroup gid = some g)
    (hne : g.rules ≠ [])
    (hrun : reconcileSecurityGroupRule w gid rule = (.ok rq, w')) :
    ruleCreateCount w'.trace = ruleCreateCount w.trace +
      proto.remotes.countP (ruleRemoteUnmatched w rule.direction proto g.rules) ∧
    rq = proto.remotes.any (ruleRemoteUnmatched w rule.direction proto g.rules) := by
  have hcw : (w.emit (.listSecurityGroupRules gid)).cloud = w.cloud := rfl
  simp only [reconcileSecurityGroupRule, hcw, hg] at hrun
  rw [if_neg hne] at hrun
  simp only [findOrCreateSecurityGroupRule, hproto] at hrun
  rcases hl : findOrCreateRemoteLoop (w.emit (.listSecurityGroupRules gid)) gid rule proto
      g.rules proto.remotes true with ⟨lres, w2⟩
  rw [hl] at hrun
  cases lres with
  | error e => simp at hrun
  | ok fb =>
    have hspec := findOrCreateRemoteLoop_spec gid rule proto g.rules proto.remotes
      (w.emit (.listSecurityGroupRules gid)) true fb w2 hl
    have hcl1 : (w.emit (.listSecurityGroupRules gid)).cluster = w.cluster := rfl
    have hcnt1 : ruleCreateCount (w.emit (.listSecurityGroupRules gid)).trace =
        ruleCreateCount w.trace := by
      simp [World.emit, ruleCreateCount, List.filter_append, isRuleCreateCall]
    have hcong : ruleRemoteUnmatched (w.emit (.listSecurityGroupRules gid))
        rule.direction proto g.rules = ruleRemoteUnmatched w rule.direction proto g.rules := by
      refine ruleRemoteUnmatched_congr w _ rule.direction proto g.rules hcl1 ?_
      rw [hcw]; exact RulesOnlyDiff.refl w.cloud
    rw [hcong, hcnt1] at hspec
    cases fb with
    | true =>
      dsimp only at hrun
      simp only [Prod.mk.injEq, Except.ok.injEq] at hrun
      obtain ⟨rfl, rfl⟩ := hrun
      refine ⟨hspec.2.2.1, ?_⟩
      have hb := hspec.2.2.2
      simp only [Bool.true_and] at hb
      rw [List.any_eq_not_all_not]
      rw [← hb]
      rfl
    | false =>
      dsimp only at hrun
      simp only [Prod.mk.injEq, Except.ok.injEq] at hrun
      obtain ⟨rfl, rfl⟩ := hrun
      refine ⟨hspec.2.2.1, ?_⟩
      have hb := hspec.2.2.2
      simp only [Bool.true_and] at hb
      rw [List.any_eq_not_all_not]
      rw [← hb]
      rfl

theorem checkTcpudp_no_portrange (w : World) (proto : VPCSecurityGroupRulePrototype)
    (r : VPCSecurityGroupRuleRemote) (rp : String) (pmin pmax : Option Int)
    (er : CloudRuleRemote) (hpr : proto.portRange = none) :
    (checkSecurityGroupRuleProtocolTcpudp w proto r rp pmin pmax er).1 ≠
      Except.ok true := by
  simp only [checkSecurityGroupRuleProtocolTcpudp]
  split
  · simp
  · rcases h : checkSecurityGroupRulePrototypeRemote w r er with ⟨res, w1⟩
    cases res with
    | error e => simp
    | ok b =>
      cases b with
      | false => simp
      | true =>
        dsimp only
        rw [hpr]
        simp

theorem matchLoop_no_portrange (d : VPCSecurityGroupRuleDirection)
    (proto : VPCSecurityGroupRulePrototype) (remote : VPCSecurityGroupRuleRemote)
    (hfam : proto.protocol = VPCSecurityGroupRuleProtocol.tcp ∨
      proto.protocol = VPCSecurityGroupRuleProtocol.udp)
    (hpr : proto.portRange = none) :
    ∀ (rules : List CloudRule) (w : World),
    (securityGroupRuleMatchLoop w d proto remote rules).1 ≠ Except.ok true := by
  intro rules
  induction rules with
  | nil => intro w; simp [securityGroupRuleMatchLoop]
  | cons r rest ih =>
    intro w
    cases r with
    | all dir rRemote =>
      simp only [securityGroupRuleMatchLoop]
      rw [if_pos (by rcases hfam with h | h <;> rw [h] <;> simp)]
      exact ih w
    | icmp dir code icmpTyp rRemote =>
      simp only [securityGroupRuleMatchLoop]
      rw [if_pos (by rcases hfam with h | h <;> rw [h] <;> simp)]
      exact ih w
    | tcpudp dir rProtocol portMin portMax rRemote =>
      simp only [securityGroupRuleMatchLoop]
      rw [if_neg (by rcases hfam with h | h <;> rw [h] <;> simp)]
      by_cases h2 : directionString d ≠ dir
      · rw [if_pos h2]; exact ih w
      · rw [if_neg h2]
        have hno := checkTcpudp_no_portrange w proto remote rProtocol portMin portMax
          rRemote hpr
        rcases hc : checkSecurityGroupRuleProtocolTcpudp w proto remote rProtocol
            portMin portMax rRemote with ⟨res, w1⟩
        rw [hc] at hno
        dsimp only at hno
        cases res with
        | error e => simp
        | ok b =>
          cases b with
          | true => exact absurd rfl hno
          | false => exact ih w1

theorem getVPCID_trace (w : World) :
    (GetVPCID w).2.trace = w.trace ∨
    ∃ n, (GetVPCID w).2.trace = w.trace ++ [CloudCall.getVPCByName n] := by
  simp only [GetVPCID, getVPCIDFromSpec, setSpecVPCID, World.emit]
  repeat'
    first
      | exact Or.inl rfl
      | exact Or.inr ⟨_, rfl⟩
      | split

theorem setVPCResourceStatus_trace (w : World) (t : ResourceType) (r : VPCResourceStatus) :
    (SetVPCResourceStatus w t r).trace = w.trace := by
  simp only [SetVPCResourceStatus, World.setNetworkStatus, World.withStatus,
    World.networkStatusD]
  repeat' first | rfl | split

theorem reconcileSecurityGroup_counts (w : World) (g : VPCSecurityGroup) :
    ruleCallCount (reconcileSecurityGroup w g).2.trace = ruleCallCount w.trace ∧
    sgCreateCount (reconcileSecurityGroup w g).2.trace =
      sgCreateCount w.trace +
        (if (reconcileSecurityGroup w g).1 = .ok true then 1 else 0) := by
  obtain ⟨gid, gname, grules⟩ := g
  cases gid with
  | some i =>
    rcases hh : w.cloud.findSecurityGroup i with _ | v <;>
      simp [reconcileSecurityGroup, World.emit, hh, setVPCResourceStatus_trace,
        ruleCallCount, sgCreateCount, List.filter_append, isRuleCall, isSGCreateCall]
  | none =>
    cases gname with
    | none =>
      simp [reconcileSecurityGroup, ruleCallCount, sgCreateCount]
    | some n =>
      rcases hf : w.cloud.findSecurityGroupByName n with _ | d
      · rcases hst : (match w.cluster.status.networkStatus with
          | some ns => (lookupA ns.securityGroups n).map (fun st : VPCResourceStatus => st.id)
          | none => (none : Option String)) with _ | gid2
        · simp only [reconcileSecurityGroup, World.emit, hf, hst]
          rcases hv : GetVPCID { cluster := w.cluster, cloud := w.cloud, trace := w.trace ++ [CloudCall.getSecurityGroupByName n] } with ⟨vres, w2⟩
          have hvt := getVPCID_trace { cluster := w.cluster, cloud := w.cloud, trace := w.trace ++ [CloudCall.getSecurityGroupByName n] }
          rw [hv] at hvt
          dsimp only at hvt
          have hrc2 : ruleCallCount w2.trace = ruleCallCount w.trace := by
            rcases hvt with h | ⟨m, h⟩ <;> rw [h] <;>
              simp [ruleCallCount, List.filter_append, isRuleCall]
          have hsc2 : sgCreateCount w2.trace = sgCreateCount w.trace := by
            rcases hvt with h | ⟨m, h⟩ <;> rw [h] <;>
              simp [sgCreateCount, List.filter_append, isSGCreateCall]
          cases vres with
          | error e => simp [hrc2, hsc2]
          | ok vid =>
            dsimp only
            have hgt := getResourceGroupID_frame w2
            rcases hg : GetResourceGroupID w2 with ⟨gres, w3⟩
            rw [hg] at hgt
            dsimp only at hgt
            have hrc3 : ruleCallCount w3.trace = ruleCallCount w.trace := by
              rcases hgt.2.2 with h | ⟨m, h⟩
              · rw [h]; exact hrc2
              · rw [h]
                simpa [ruleCallCount, List.filter_append, isRuleCall] using hrc2
            have hsc3 : sgCreateCount w3.trace = sgCreateCount w.trace := by
              rcases hgt.2.2 with h | ⟨m, h⟩
              · rw [h]; exact hsc2
              · rw [h]
                simpa [sgCreateCount, List.filter_append, isSGCreateCall] using hsc2
            cases gres with
            | error e => simp [hrc3, hsc3]
            | ok rgid =>
              dsimp only
              rw [tagResource_eq]
              dsimp only
              constructor
              · simp only [setVPCResourceStatus_trace, World.withCloud, World.emit,
                  ruleCallCount, List.filter_append, List.length_append]
                split <;>
                  simpa [List.filter, isRuleCall, List.filter_append, ruleCallCount]
                    using hrc3
              · simp only [setVPCResourceStatus_trace, World.withCloud, World.emit,
                  sgCreateCount, List.filter_append, List.length_append]
                split <;>
                  simpa [List.filter, isSGCreateCall, List.filter_append, sgCreateCount]
                    using hsc3
        · rcases hh : w.cloud.findSecurityGroup gid2 with _ | v <;>
            simp [reconcileSecurityGroup, World.emit, hf, hst, hh,
              setVPCResourceStatus_trace, ruleCallCount, sgCreateCount,
              List.filter_append, isRuleCall, isSGCreateCall]
      · rcases hh : w.cloud.findSecurityGroup d.id with _ | v <;>
          simp [reconcileSecurityGroup, World.emit, hf, hh,
            setVPCResourceStatus_trace, ruleCallCount, sgCreateCount,
            List.filter_append, isRuleCall, isSGCreateCall]

theorem checkRemote_sgc (w : World) (remote : VPCSecurityGroupRuleRemote)
    (er : CloudRuleRemote) :
    sgCreateCount (checkSecurityGroupRulePrototypeRemote w remote er).2.trace =
      sgCreateCount w.trace := by
  simp only [checkSecurityGroupRulePrototypeRemote, World.emit]
  repeat'
    first
      | rfl
      | (simp [sgCreateCount, List.filter_append, isSGCreateCall])
      | split

theorem checkIcmp_sgc (w : World) (p : VPCSecurityGroupRulePrototype)
    (r : VPCSecurityGroupRuleRemote) (code icmpTyp : Option Int) (er : CloudRuleRemote) :
    sgCreateCount (checkSecurityGroupRuleProtocolIcmp w p r code icmpTyp er).2.trace =
      sgCreateCount w.trace := by
  simp only [checkSecurityGroupRuleProtocolIcmp]
  have hf := checkRemote_sgc w r er
  rcases hr : checkSecurityGroupRulePrototypeRemote w r er with ⟨res, w1⟩
  rw [hr] at hf
  dsimp only at hf
  cases res with
  | error e => exact hf
  | ok b =>
    cases b with
    | false => exact hf
    | true =>
      dsimp only
      rcases p.icmpCode with _ | c <;> rcases p.icmpType with _ | t <;> try exact hf
      rcases code with _ | c2 <;> rcases icmpTyp with _ | t2 <;> try exact hf
      dsimp only
      split <;> exact hf

theorem checkTcpudp_sgc (w : World) (p : VPCSecurityGroupRulePrototype)
    (r : VPCSecurityGroupRuleRemote) (rp : String) (pmin pmax : Option Int)
    (er : CloudRuleRemote) :
    sgCreateCount (checkSecurityGroupRuleProtocolTcpudp w p r rp pmin pmax er).2.trace =
      sgCreateCount w.trace := by
  simp only [checkSecurityGroupRuleProtocolTcpudp]
  split
  · rfl
  · have hf := checkRemote_sgc w r er
    rcases hr : checkSecurityGroupRulePrototypeRemote w r er with ⟨res, w1⟩
    rw [hr] at hf
    dsimp only at hf
    cases res with
    | error e => exact hf
    | ok b =>
      cases b with
      | false => exact hf
      | true =>
        dsimp only
        rcases p.portRange with _ | pr
        · exact hf
        · rcases pmin with _ | mn <;> rcases pmax with _ | mx <;> try exact hf
          dsimp only
          split <;> exact hf

theorem matchLoop_sgc (d : VPCSecurityGroupRuleDirection)
    (proto : VPCSecurityGroupRulePrototype) (remote : VPCSecurityGroupRuleRemote) :
    ∀ (rules : List CloudRule) (w : World),
    sgCreateCount (securityGroupRuleMatchLoop w d proto remote rules).2.trace =
      sgCreateCount w.trace := by
  intro rules
  induction rules with
  | nil => intro w; rfl
  | cons r rest ih =>
    intro w
    cases r with
    | all dir rRemote =>
      simp only [securityGroupRuleMatchLoop]
      by_cases h1 : proto.protocol ≠ VPCSecurityGroupRuleProtocol.all
      · simp only [if_pos h1]; exact ih w
      · simp only [if_neg h1]
        by_cases h2 : directionString d ≠ dir
        · simp only [if_pos h2]; exact ih w
        · simp only [if_neg h2]
          have hf := checkRemote_sgc w remote rRemote
          rcases hc : checkSecurityGroupRuleProtocolAll w remote rRemote with ⟨res, w1⟩
          rw [show checkSecurityGroupRuleProtocolAll = checkSecurityGroupRulePrototypeRemote from rfl] at hc
          rw [hc] at hf
          dsimp only at hf
          cases res with
          | error e => exact hf
          | ok b =>
            cases b with
            | true => exact hf
            | false => exact (ih w1).trans hf
    | icmp dir code icmpTyp rRemote =>
      simp only [securityGroupRuleMatchLoop]
      by_cases h1 : proto.protocol ≠ VPCSecurityGroupRuleProtocol.icmp
      · simp only [if_pos h1]; exact ih w
      · simp only [if_neg h1]
        by_cases h2 : directionString d ≠ dir
        · simp only [if_pos h2]; exact ih w
        · simp only [if_neg h2]
          have hf := checkIcmp_sgc w proto remote code icmpTyp rRemote
          rcases hc : checkSecurityGroupRuleProtocolIcmp w proto remote code icmpTyp rRemote with ⟨res, w1⟩
          rw [hc] at hf
          dsimp only at hf
          cases res with
          | error e => exact hf
          | ok b =>
            cases b with
            | true => exact hf
            | false => exact (ih w1).trans hf
    | tcpudp dir rProtocol portMin portMax rRemote =>
      simp only [securityGroupRuleMatchLoop]
      by_cases h1 : proto.protocol ≠ VPCSecurityGroupRuleProtocol.tcp ∧
          proto.protocol ≠ VPCSecurityGroupRuleProtocol.udp
      · simp only [if_pos h1]; exact ih w
      · simp only [if_neg h1]
        by_cases h2 : directionString d ≠ dir
        · simp only [if_pos h2]; exact ih w
        · simp only [if_neg h2]
          have hf := checkTcpudp_sgc w proto remote rProtocol portMin portMax rRemote
          rcases hc : checkSecurityGroupRuleProtocolTcpudp w proto remote rProtocol portMin portMax rRemote with ⟨res, w1⟩
          rw [hc] at hf
          dsimp only at hf
          cases res with
          | error e => exact hf
          | ok b =>
            cases b with
            | true => exact hf
            | false => exact (ih w1).trans hf

theorem createRuleRemote_sgc (w : World) (remote : VPCSecurityGroupRuleRemote) :
    sgCreateCount (createSecurityGroupRuleRemote w remote).2.trace =
      sgCreateCount w.trace := by
  simp only [createSecurityGroupRuleRemote, World.emit]
  repeat'
    first
      | rfl
      | (simp [sgCreateCount, List.filter_append, isSGCreateCall])
      | split

theorem createRule_sgc (w : World) (gid : String) (rule : VPCSecurityGroupRule)
    (remote : VPCSecurityGroupRuleRemote) :
    sgCreateCount (createSecurityGroupRule w gid rule remote).2.trace =
      sgCreateCount w.trace := by
  simp only [createSecurityGroupRule]
  have hf := createRuleRemote_sgc w remote
  rcases hc : createSecurityGroupRuleRemote w remote with ⟨res, w1⟩
  rw [hc] at hf
  dsimp only at hf
  cases res with
  | error e => exact hf
  | ok p =>
    dsimp only
    rcases hp : (match rule.direction with
      | VPCSecurityGroupRuleDirection.inbound => rule.source
      | VPCSecurityGroupRuleDirection.outbound => rule.destination) with _ | proto
    · rw [hp]
      exact hf
    · rw [hp]
      dsimp only
      simp only [World.withCloud, World.emit, sgCreateCount, List.filter_append,
        List.length_append]
      simp only [sgCreateCount] at hf
      rw [hf]
      simp [isSGCreateCall]

theorem createRuleLoop_sgc (gid : String) (rule : VPCSecurityGroupRule) :
    ∀ (remotes : List VPCSecurityGroupRuleRemote) (w : World),
    sgCreateCount (createSecurityGroupRuleLoop w gid rule remotes).2.trace =
      sgCreateCount w.trace := by
  intro remotes
  induction remotes with
  | nil => intro w; rfl
  | cons r rest ih =>
    intro w
    simp only [createSecurityGroupRuleLoop]
    have hf := createRule_sgc w gid rule r
    rcases hc : createSecurityGroupRule w gid rule r with ⟨res, w1⟩
    rw [hc] at hf
    dsimp only at hf
    cases res with
    | error e => exact hf
    | ok u => exact (ih w1).trans hf

theorem createAllRemotes_sgc (w : World) (gid : String) (rule : VPCSecurityGroupRule) :
    sgCreateCount (createSecurityGroupRuleAllRemotes w gid rule).2.trace =
      sgCreateCount w.trace := by
  simp only [createSecurityGroupRuleAllRemotes]
  rcases hp : (match rule.direction with
    | VPCSecurityGroupRuleDirection.inbound =>
        rule.source.map (fun p : VPCSecurityGroupRulePrototype => p.remotes)
    | VPCSecurityGroupRuleDirection.outbound =>
        rule.destination.map (fun p : VPCSecurityGroupRulePrototype => p.remotes))
    with _ | remotes
  · rw [hp]
  · rw [hp]
    exact createRuleLoop_sgc gid rule remotes w

theorem findOrCreateRemoteLoop_sgc (gid : String) (rule : VPCSecurityGroupRule)
    (proto : VPCSecurityGroupRulePrototype) (existingRules : List CloudRule) :
    ∀ (remotes : List VPCSecurityGroupRuleRemote) (w : World) (allMatch : Bool),
    sgCreateCount (findOrCreateRemoteLoop w gid rule proto existingRules remotes
      allMatch).2.trace = sgCreateCount w.trace := by
  intro remotes
  induction remotes with
  | nil => intro w allMatch; rfl
  | cons remote rest ih =>
    intro w allMatch
    simp only [findOrCreateRemoteLoop]
    have hm := matchLoop_sgc rule.direction proto remote existingRules w
    rcases hc : securityGroupRuleMatchLoop w rule.direction proto remote existingRules
      with ⟨mres, w1⟩
    rw [hc] at hm
    dsimp only at hm
    cases mres with
    | error e => exact hm
    | ok mb =>
      cases mb with
      | true => exact (ih w1 allMatch).trans hm
      | false =>
        dsimp only
        have hcr := createRule_sgc w1 gid rule remote
        rcases hc2 : createSecurityGroupRule w1 gid rule remote with ⟨cres, w2⟩
        rw [hc2] at hcr
        dsimp only at hcr
        cases cres with
        | error e => exact hcr.trans hm
        | ok u => exact ((ih w2 false).trans hcr).trans hm

theorem findOrCreate_sgc (w : World) (gid : String) (rule : VPCSecurityGroupRule)
    (existingRules : List CloudRule) :
    sgCreateCount (findOrCreateSecurityGroupRule w gid rule existingRules).2.trace =
      sgCreateCount w.trace := by
  simp only [findOrCreateSecurityGroupRule]
  rcases hp : (match rule.direction with
    | VPCSecurityGroupRuleDirection.inbound => rule.source
    | VPCSecurityGroupRuleDirection.outbound => rule.destination) with _ | proto
  · rw [hp]
  · rw [hp]
    exact findOrCreateRemoteLoop_sgc gid rule proto existingRules proto.remotes w true

theorem reconcileRule_sgc (w : World) (gid : String) (rule : VPCSecurityGroupRule) :
    sgCreateCount (reconcileSecurityGroupRule w gid rule).2.trace =
      sgCreateCount w.trace := by
  rcases hfg : w.cloud.findSecurityGroup gid with _ | g
  · simp [reconcileSecurityGroupRule, World.emit, hfg, sgCreateCount,
      List.filter_append, isSGCreateCall]
  · simp only [reconcileSecurityGroupRule, World.emit, hfg]
    have hW : sgCreateCount ({ cluster := w.cluster, cloud := w.cloud, trace := w.trace ++ [CloudCall.listSecurityGroupRules gid] } : World).trace = sgCreateCount w.trace := by
      simp [sgCreateCount, List.filter_append, isSGCreateCall]
    split
    · have hf := createAllRemotes_sgc { cluster := w.cluster, cloud := w.cloud, trace := w.trace ++ [CloudCall.listSecurityGroupRules gid] } gid rule
      rcases hc : createSecurityGroupRuleAllRemotes { cluster := w.cluster, cloud := w.cloud, trace := w.trace ++ [CloudCall.listSecurityGroupRules gid] } gid rule with ⟨res, w2⟩
      rw [hc] at hf
      dsimp only at hf
      cases res with
      | error e => exact hf.trans hW
      | ok u => exact hf.trans hW
    · have hf := findOrCreate_sgc { cluster := w.cluster, cloud := w.cloud, trace := w.trace ++ [CloudCall.listSecurityGroupRules gid] } gid rule g.rules
      rcases hc : findOrCreateSecurityGroupRule { cluster := w.cluster, cloud := w.cloud, trace := w.trace ++ [CloudCall.listSecurityGroupRules gid] } gid rule g.rules with ⟨res, w2⟩
      rw [hc] at hf
      dsimp only at hf
      cases res with
      | error e => exact hf.trans hW
      | ok b => cases b <;> exact hf.trans hW

theorem rulesLoop_sgc (gid : String) :
    ∀ (rules : List VPCSecurityGroupRule) (w : World) (rq : Bool),
    sgCreateCount (reconcileSecurityGroupRulesLoop w gid rules rq).2.trace =
      sgCreateCount w.trace := by
  intro rules
  induction rules with
  | nil => intro w rq; rfl
  | cons r rest ih =>
    intro w rq
    simp only [reconcileSecurityGroupRulesLoop]
    have hf := reconcileRule_sgc w gid r
    rcases hc : reconcileSecurityGroupRule w gid r with ⟨res, w1⟩
    rw [hc] at hf
    dsimp only at hf
    cases res with
    | error e => exact hf
    | ok rq1 => exact (ih w1 (rq || rq1)).trans hf

theorem reconcileRules_sgc (w : World) (sg : VPCSecurityGroup) :
    sgCreateCount (reconcileSecurityGroupRules w sg).2.trace =
      sgCreateCount w.trace := by
  simp only [reconcileSecurityGroupRules]
  rcases hp : getSecurityGroupID w.cluster sg with _ | gid
  · rfl
  · dsimp only
    split
    · rfl
    · exact rulesLoop_sgc gid sg.rules w false

theorem phase2_sgc (sgs : List VPCSecurityGroup) :
    ∀ (w : World) (rq : Bool),
    sgCreateCount (reconcileSecurityGroupsPhase2 w sgs rq).2.trace =
      sgCreateCount w.trace := by
  induction sgs with
  | nil => intro w rq; rfl
  | cons g rest ih =>
    intro w rq
    simp only [reconcileSecurityGroupsPhase2]
    have hf := reconcileRules_sgc w g
    rcases hc : reconcileSecurityGroupRules w g with ⟨res, w1⟩
    rw [hc] at hf
    dsimp only at hf
    cases res with
    | error e => exact hf
    | ok rq1 => exact (ih w1 (rq || rq1)).trans hf

theorem phase1_counts (sgs : List VPCSecurityGroup) :
    ∀ (w : World) (rq : Bool),
    ruleCallCount (reconcileSecurityGroupsPhase1 w sgs rq).2.trace =
      ruleCallCount w.trace ∧
    ((reconcileSecurityGroupsPhase1 w sgs rq).1 = .ok false →
      sgCreateCount (reconcileSecurityGroupsPhase1 w sgs rq).2.trace =
        sgCreateCount w.trace) ∧
    (∀ b, (reconcileSecurityGroupsPhase1 w sgs rq).1 = .ok b →
      rq = true → b = true) := by
  induction sgs with
  | nil =>
    intro w rq
    refine ⟨rfl, fun _ => rfl, ?_⟩
    intro b hb hrq
    simp only [reconcileSecurityGroupsPhase1, Except.ok.injEq] at hb
    rw [← hb, hrq]
  | cons g rest ih =>
    intro w rq
    simp only [reconcileSecurityGroupsPhase1]
    have hc := reconcileSecurityGroup_counts w g
    rcases hg : reconcileSecurityGroup w g with ⟨res, w1⟩
    rw [hg] at hc
    dsimp only at hc
    cases res with
    | error e =>
      refine ⟨hc.1, ?_, ?_⟩
      · intro h; simp at h
      · intro b hb; simp at hb
    | ok rq1 =>
      dsimp only
      have ihw := ih w1 (rq || rq1)
      refine ⟨ihw.1.trans hc.1, ?_, ?_⟩
      · intro h
        have hrq1 : rq1 = false := by
          cases rq1 with
          | false => rfl
          | true =>
            have := ihw.2.2 false h (by simp)
            exact absurd this Bool.false_ne_true
        have h2 := ihw.2.1 h
        rw [h2, hc.2, hrq1]
        simp
      · intro b hb hrq
        exact ihw.2.2 b hb (by rw [hrq]; simp)

/-! # Claims -/

/-- C9: resource-group resolution by name returns the unique matching group
when the list-by-name call returns exactly one match, and fails with an error
whenever it returns zero matches or more than one match; ambiguity is never
silently resolved. -/
theorem c9_resource_group_unique_resolution (w : World) (n : String) :
    (∀ g : CloudResourceGroup, w.cloud.findResourceGroupsByName n = [g] →
        (serviceGetResourceGroupByName w n).1 = .ok g) ∧
    ((w.cloud.findResourceGroupsByName n).length ≠ 1 →
        isErr (serviceGetResourceGroupByName w n).1 = true) := by
  constructor
  · intro g hg
    simp only [serviceGetResourceGroupByName, World.emit]
    split
    · rename_i g2 heq
      simp only [heq] at hg
      obtain rfl : g2 = g := by simpa using hg
      simp
    · rename_i hne
      exact (hne g hg).elim
  · intro hne
    simp only [serviceGetResourceGroupByName, World.emit]
    split
    · rename_i g2 heq
      exact absurd (by simp [heq]) hne
    · simp [isErr]

/-- Witness for C9 at concrete clouds: one exact match resolves to that group,
and an ambiguous (duplicate) result errors. -/
theorem c9_witness :
    fxWorld.cloud.findResourceGroupsByName "rgA" = [{ id := "rg-1", name := "rgA" }] ∧
    (serviceGetResourceGroupByName fxWorld "rgA").1 = .ok { id := "rg-1", name := "rgA" } ∧
    (fxDupRGWorld.cloud.findResourceGroupsByName "dup").length ≠ 1 ∧
    isErr (serviceGetResourceGroupByName fxDupRGWorld "dup").1 = true := by
  refine ⟨by decide, ?_, by decide, ?_⟩
  · exact (c9_resource_group_unique_resolution fxWorld "rgA").1 _ (by decide)
  · exact (c9_resource_group_unique_resolution fxDupRGWorld "dup").2 (by decide)

/-- C8: first-pass VPC scenario.  With no cached VPC and no live VPC named
`c1-vpc`, one pass issues exactly one `CreateVPC`, tags it with the cluster
name `c1`, caches `{id, ready := false}` and returns `(true, no error)`; a
second pass in which the cloud reports the VPC `available` updates the cache
to `ready := true` and returns `(false, no error)` with no create call. -/
theorem c8_vpc_first_pass_scenario :
    (ReconcileVPC fxWorld).1 = .ok true ∧
    (ReconcileVPC fxWorld).2.trace.filter isCreateCall =
      [.createVPC (some "c1-vpc") "rg-1"] ∧
    (ReconcileVPC fxWorld).2.trace.contains (.attachTag "c1" "crnidrg-1") = true ∧
    vpcStatusOf (ReconcileVPC fxWorld).2 =
      some { id := "idrg-1", name := "c1-vpc", ready := false } ∧
    (ReconcileVPC fxVPCWorld2).1 = .ok false ∧
    createCount (ReconcileVPC fxVPCWorld2).2.trace = 0 ∧
    vpcStatusOf (ReconcileVPC fxVPCWorld2).2 =
      some { id := "idrg-1", name := "c1-vpc", ready := true } := by
  decide

/-- Counterexample for C4: a subnet declared by name whose status-cache entry
is `ready := true` is still the subject of a get-subnet-by-name cloud fetch
(the cache check only short-circuits the get-by-ID fetch), contradicting the
claim that no cloud fetch of either kind occurs. -/
theorem c4_counterexample :
    (reconcileSubnet fxC4World fxC4Subnet true).1 = .ok false ∧
    (reconcileSubnet fxC4World fxC4Subnet true).2.trace = [.getSubnetByName "s1"] := by
  decide

/-- C4 (amended): a subnet whose role's status-cache entry is `ready := true`
is never fetched by ID (`GetSubnet`), the pass leaves the cluster object
unchanged and returns requeue `false`; a get-by-name lookup may still occur. -/
theorem c4_ready_subnet_not_fetched_by_id (w : World) (sub : Subnet) (isCP : Bool)
    (n : String) (st : VPCResourceStatus) (ns : VPCNetworkStatus)
    (hns : w.cluster.status.networkStatus = some ns)
    (hname : sub.name = some n)
    (hst : lookupA (if isCP then ns.controlPlaneSubnets else ns.workerSubnets) n = some st)
    (hready : st.ready = true)
    (hfound : sub.id ≠ none ∨ w.cloud.findSubnetByName n ≠ none) :
    (reconcileSubnet w sub isCP).1 = .ok false ∧
    (reconcileSubnet w sub isCP).2.cluster = w.cluster ∧
    (reconcileSubnet w sub isCP).2.trace.filter isGetSubnetById =
      w.trace.filter isGetSubnetById := by
  cases hid : sub.id with
  | some i =>
    cases isCP with
    | true =>
      simp only [if_pos trivial] at hst
      simp [reconcileSubnet, hid, hns, hname, hst, hready]
    | false =>
      norm_num at hst
      simp [reconcileSubnet, hid, hns, hname, hst, hready]
  | none =>
    rcases hfound with hl | hr
    · exact absurd hid hl
    · rcases hsd : w.cloud.findSubnetByName n with _ | sd
      · exact absurd hsd hr
      · cases isCP with
        | true =>
          simp only [if_pos trivial] at hst
          simp [reconcileSubnet, hid, hns, hname, hst, hready, hsd, World.emit,
            List.filter_append, isGetSubnetById]
        | false =>
          norm_num at hst
          simp [reconcileSubnet, hid, hns, hname, hst, hready, hsd, World.emit,
            List.filter_append, isGetSubnetById]

/-- Witness for C4 (amended) at the concrete ready-cached subnet. -/
theorem c4_witness :
    fxC4World.cluster.status.networkStatus = some fxReadyNS ∧
    (reconcileSubnet fxC4World fxC4Subnet true).1 = .ok false ∧
    (reconcileSubnet fxC4World fxC4Subnet true).2.trace.filter isGetSubnetById =
      fxC4World.trace.filter isGetSubnetById := by
  have h := c4_ready_subnet_not_fetched_by_id fxC4World fxC4Subnet true "s1"
    { id := "sid1", name := "s1", ready := true } fxReadyNS rfl rfl (by decide) rfl
    (Or.inr (by decide))
  exact ⟨rfl, h.1, h.2.2⟩

/-- Counterexample for C5: with the image spec's resource group unset and the
network resource group set (resolving to `rg-net`), custom-image creation uses
the cluster resource group `rg-1`, not the network resource group. -/
theorem c5_counterexample :
    fxC5Cluster.spec.image = some fxImage ∧
    fxImage.resourceGroup = none ∧
    fxC5Network.resourceGroup = some "rgNet" ∧
    (GetNetworkResourceGroupID fxC5World).1 = .ok "rg-net" ∧
    createImageRGs (createCustomImage fxC5World).2.trace = [some "rg-1"] ∧
    ¬ (some "rg-1" = (some "rg-net" : Option String)) := by
  decide

/-- C5 (amended): custom-image creation resolves its resource group by a
two-level fallback only: the image spec's own resource-group reference when
set, else the cluster resource group; the network resource group is not
consulted. -/
theorem c5_image_resource_group_fallback (w : World) (im : ImageSpec)
    (img : CloudImage) (w2 : World)
    (him : w.cluster.spec.image = some im)
    (hrun : createCustomImage w = (.ok img, w2)) :
    (∀ rg : GenericResourceReference, im.resourceGroup = some rg → rg.id ≠ "" →
        createImageRGs w2.trace = createImageRGs w.trace ++ [some rg.id]) ∧
    (im.resourceGroup = none →
        ∀ rgid : String, (GetResourceGroupID w).1 = .ok rgid →
          createImageRGs w2.trace = createImageRGs w.trace ++ [some rgid]) := by
  constructor
  · intro rg hrg hid
    simp only [createCustomImage, him] at hrun
    rw [hrg] at hrun
    dsimp only at hrun
    rw [if_pos hid] at hrun
    dsimp only at hrun
    cases hos : im.operatingSystem with
    | none => rw [hos] at hrun; simp at hrun
    | some os =>
      rw [hos] at hrun
      dsimp only at hrun
      cases hhref : buildCOSObjectHRef w.cluster with
      | error e => rw [hhref] at hrun; simp at hrun
      | ok href =>
        rw [hhref] at hrun
        dsimp only at hrun
        rw [tagResource_eq] at hrun
        have hw2 := congrArg Prod.snd hrun
        dsimp only at hw2
        rw [← hw2]
        dsimp only [World.emit, World.withCloud]
        rw [createImageRGs_append]
        rw [createImageRGs_append]
        split <;> simp [createImageRGs]
  · intro hrg rgid hok
    simp only [createCustomImage, him, hrg] at hrun
    rcases hget : GetResourceGroupID w with ⟨res, wg⟩
    rw [hget] at hrun
    cases res with
    | error e => simp at hrun
    | ok rgid2 =>
      have : rgid2 = rgid := by rw [hget] at hok; simpa using hok
      subst this
      dsimp only at hrun
      cases hos : im.operatingSystem with
      | none => rw [hos] at hrun; simp at hrun
      | some os =>
        rw [hos] at hrun
        dsimp only at hrun
        cases hhref : buildCOSObjectHRef wg.cluster with
        | error e => rw [hhref] at hrun; simp at hrun
        | ok href =>
          rw [hhref] at hrun
          dsimp only at hrun
          rw [tagResource_eq] at hrun
          have hw2 := congrArg Prod.snd hrun
          dsimp only at hw2
          rw [← hw2]
          dsimp only [World.emit, World.withCloud]
          rw [createImageRGs_append, createImageRGs_append]
          have htr : createImageRGs wg.trace = createImageRGs w.trace := by
            have hf := (getResourceGroupID_frame w).2.2
            rw [hget] at hf
            dsimp only at hf
            rcases hf with hf | ⟨m, hf⟩ <;>
              simp [hf, createImageRGs_append, createImageRGs]
          rw [htr]
          split <;> simp [createImageRGs]

/-- Witness for C5 (amended): with no image-spec resource group, the create
call carries the cluster resource group. -/
theorem c5_witness :
    fxWorld.cluster.spec.image = some fxImage ∧
    fxImage.resourceGroup = none ∧
    (GetResourceGroupID fxWorld).1 = .ok "rg-1" ∧
    createImageRGs (createCustomImage fxWorld).2.trace =
      createImageRGs fxWorld.trace ++ [some "rg-1"] := by
  have hrun : createCustomImage fxWorld = (.ok fxCreatedImage, (createCustomImage fxWorld).2) :=
    Prod.ext_iff.2 ⟨by decide, rfl⟩
  exact ⟨rfl, rfl, by decide,
    (c5_image_resource_group_fallback fxWorld fxImage fxCreatedImage _ rfl hrun).2 rfl
      "rg-1" (by decide)⟩

/-- Counterexample for C6: the load-balancer creation request built by the
source carries health-check parameters 5s delay, 2 retries, 2s timeout over
TCP on every pool — not the 60s/5/30s/HTTPS parameters the claim states. -/
theorem c6_counterexample :
    (lbCreateOptsOf (createLoadBalancer fxC4World fxLoadBalancerSpec).2.trace).map
        (fun o => o.pools.map (fun p => p.healthMonitor)) =
      [[sourceHealthMonitor, sourceHealthMonitor]] ∧
    ¬ (sourceHealthMonitor = specHealthMonitor) := by
  decide

/-- C6 (amended): every successful load-balancer creation issues exactly one
creation request containing the resolved resource group, the declared
public/private flag, one pool and one listener per required port (the API
server port plus each additional listener port), round-robin on every pool,
health checks of 5s delay, 2 retries, 2s timeout over TCP, and the
deduplicated set of subnet IDs resolved by `GetSubnetIDs`. -/
theorem c6_load_balancer_create_options (w : World) (lb : VPCLoadBalancerSpec)
    (st : VPCLoadBalancerStatus) (w2 : World)
    (hrun : createLoadBalancer w lb = (.ok st, w2)) :
    ∃ opts : LBCreateOptions,
      lbCreateOptsOf w2.trace = lbCreateOptsOf w.trace ++ [opts] ∧
      opts.name = lb.name ∧
      (opts.isPublic ↔ lb.public = some true) ∧
      (GetResourceGroupID w).1 = .ok opts.resourceGroup ∧
      opts.resourceGroup ≠ "" ∧
      (GetSubnetIDs w).1 = .ok opts.subnets ∧
      opts.subnets.Nodup ∧
      opts.pools.map (fun p => p.algorithm) =
        List.replicate (1 + lb.additionalListeners.length) "round_robin" ∧
      opts.pools.map (fun p => p.healthMonitor) =
        List.replicate (1 + lb.additionalListeners.length) sourceHealthMonitor ∧
      opts.listeners.map (fun l => l.port) =
        APIServerPort w.cluster :: lb.additionalListeners.map (fun al => al.port) ∧
      opts.listeners.map (fun l => l.defaultPoolName) = opts.pools.map (fun p => p.name) := by
  simp only [createLoadBalancer] at hrun
  have hgf := getResourceGroupID_frame w
  rcases hg : GetResourceGroupID w with ⟨res, w1⟩
  rw [hg] at hrun hgf
  dsimp only at hrun hgf
  cases res with
  | error e => simp at hrun
  | ok rgid =>
    dsimp only at hrun
    by_cases hr : rgid = ""
    · rw [if_pos hr] at hrun; simp at hrun
    · rw [if_neg hr] at hrun
      have hsf := getSubnetIDs_frame w1
      have hsv := getSubnetIDs_val_congr w w1 hgf.1 hgf.2.1
      rcases hs : GetSubnetIDs w1 with ⟨res2, ws⟩
      rw [hs] at hrun hsf
      rw [hs] at hsv
      dsimp only at hrun hsf hsv
      cases res2 with
      | error e => simp at hrun
      | ok ids =>
        dsimp only at hrun
        have hw2 := congrArg Prod.snd hrun
        dsimp only at hw2
        have hcw : ws.cluster = w.cluster := hsf.1.trans hgf.1
        rw [hcw] at hw2
        refine ⟨{ isPublic := lb.public = some true, name := lb.name,
                  resourceGroup := rgid, subnets := ids,
                  pools := { algorithm := "round_robin", healthMonitor := sourceHealthMonitor,
                             name := lb.name ++ "-pool-" ++ toString (APIServerPort w.cluster),
                             protocol := "tcp" } ::
                    lb.additionalListeners.map (fun al =>
                      { algorithm := "round_robin", healthMonitor := sourceHealthMonitor,
                        name := "additional-pool-" ++ toString al.port, protocol := "tcp" }),
                  listeners := { protocol := "tcp", port := APIServerPort w.cluster,
                                 defaultPoolName := lb.name ++ "-pool-" ++ toString (APIServerPort w.cluster) } ::
                    lb.additionalListeners.map (fun al =>
                      { protocol := "tcp", port := al.port,
                        defaultPoolName := "additional-pool-" ++ toString al.port }) },
          ?_, rfl, ?_, ?_, hr, ?_, ?_, ?_, ?_, ?_, ?_⟩
        · rw [← hw2]
          dsimp only [World.emit, World.withCloud]
          rw [lbCreateOptsOf_append]
          obtain ⟨t, hte, htP⟩ := hsf.2.2
          have h1 : lbCreateOptsOf ws.trace = lbCreateOptsOf w.trace := by
            rw [hte]
            rcases hgf.2.2 with h | ⟨n, h⟩ <;> rw [h]
            · rw [lbCreateOptsOf_append, lbCreateOptsOf_of_subnet_lookups t htP]
              simp
            · rw [List.append_assoc, lbCreateOptsOf_append]
              have : lbCreateOptsOf ([CloudCall.listResourceGroupsByName n] ++ t) = [] := by
                rw [lbCreateOptsOf_append, lbCreateOptsOf_of_subnet_lookups t htP]
                rfl
              rw [this]
              simp
          rw [h1]
          rfl
        · simp [decide_eq_true_iff]
        · exact rfl
        · rw [← hsv]
        · exact getSubnetIDs_nodup w1 ids ws hs
        · simp only [List.map_cons, List.map_map]
          rw [Nat.add_comm, List.replicate_succ]
          simp [Function.comp_def, List.map_const]
        · simp only [List.map_cons, List.map_map]
          rw [Nat.add_comm, List.replicate_succ]
          simp [Function.comp_def, List.map_const]
        · simp
        · simp

/-- Witness for C6 at a concrete creation: the single request is issued and
the subnet IDs it carries resolve via `GetSubnetIDs`. -/
theorem c6_witness :
    (createLoadBalancer fxC4World fxLoadBalancerSpec).1 = .ok fxC6Status ∧
    (GetSubnetIDs fxC4World).1 = .ok ["sid1"] ∧
    lbCreateOptsOf (createLoadBalancer fxC4World fxLoadBalancerSpec).2.trace ≠ [] := by
  have hrun : createLoadBalancer fxC4World fxLoadBalancerSpec =
      (.ok fxC6Status, (createLoadBalancer fxC4World fxLoadBalancerSpec).2) :=
    Prod.ext_iff.2 ⟨by decide, rfl⟩
  obtain ⟨opts, h1, -⟩ :=
    c6_load_balancer_create_options fxC4World fxLoadBalancerSpec fxC6Status _ hrun
  refine ⟨by decide, by decide, ?_⟩
  rw [h1]
  simp


end VPCReconciler

namespace VPCReconciler

/-- C7 (counterexample to the original claim): with an undeclarable control-plane
subnet (no id, name or zone) and a declared worker subnet `w1`, `ReconcileSubnets`
errors and its trace is empty — the worker subnets were never reconciled, so an
error in one role does block the other role in the same pass. -/
theorem c7_counterexample :
    isErr (ReconcileSubnets fxC7World).1 = true ∧
    (ReconcileSubnets fxC7World).2.trace = [] := by decide

/-- C7 (amended): the control-plane and worker subnet passes run sequentially in
one `ReconcileSubnets` call; on success the run decomposes into a control-plane
subnet-list pass starting from the input world, followed by a worker
subnet-list pass ending in the output world, with each pass's subnet list
determined by the spec (or built from the zones when a role's list is empty),
and the aggregate requeue is the disjunction of the two roles' requeue flags.
The roles are not independent in the error case: a control-plane failure aborts
the reconcile before the worker pass runs (see the counterexample). -/
theorem c7_subnet_roles_requeue_aggregation (w : World) (nw : VPCNetworkSpec)
    (rq : Bool) (w2 : World)
    (hnw : w.cluster.spec.network = some nw)
    (h : ReconcileSubnets w = (.ok rq, w2)) :
    ∃ (cpList wList : List Subnet) (cpRq wRq : Bool) (w1 u1 u2 : World),
      ((nw.controlPlaneSubnets = [] ∧ buildSubnetsForZones w = (.ok cpList, w1)) ∨
       (nw.controlPlaneSubnets ≠ [] ∧ cpList = nw.controlPlaneSubnets ∧ w1 = w)) ∧
      reconcileSubnetList w1 cpList true false = (.ok cpRq, u1) ∧
      ((nw.workerSubnets ≠ [] ∧ wList = nw.workerSubnets ∧ u2 = u1) ∨
       (nw.workerSubnets = [] ∧ nw.controlPlaneSubnets = [] ∧
         wList = cpList ∧ u2 = u1) ∨
       (nw.workerSubnets = [] ∧ nw.controlPlaneSubnets ≠ [] ∧
         buildSubnetsForZones u1 = (.ok wList, u2))) ∧
      reconcileSubnetList u2 wList false false = (.ok wRq, w2) ∧
      rq = (cpRq || wRq) := by
  simp only [ReconcileSubnets] at h
  rw [hnw] at h
  dsimp only at h
  by_cases hcp : nw.controlPlaneSubnets = []
  · rw [if_pos hcp] at h
    rcases hb : buildSubnetsForZones w with ⟨rb, wb⟩
    rw [hb] at h
    cases rb with
    | error e => simp at h
    | ok cpList =>
      dsimp only at h
      rcases hl1 : reconcileSubnetList wb cpList true false with ⟨r1, u1⟩
      rw [hl1] at h
      cases r1 with
      | error e => simp at h
      | ok cpRq =>
        dsimp only at h
        by_cases hw : nw.workerSubnets = []
        · rw [if_pos hw] at h
          rw [if_neg (by simp [hcp])] at h
          dsimp only at h
          rcases hl2 : reconcileSubnetList u1 cpList false false with ⟨r2, v2⟩
          rw [hl2] at h
          cases r2 with
          | error e => simp at h
          | ok wRq =>
            simp only [Prod.mk.injEq, Except.ok.injEq] at h
            obtain ⟨rfl, rfl⟩ := h
            exact ⟨cpList, cpList, cpRq, wRq, wb, u1, u1, Or.inl ⟨hcp, rfl⟩, hl1,
              Or.inr (Or.inl ⟨hw, hcp, rfl, rfl⟩), hl2, rfl⟩
        · rw [if_neg hw] at h
          dsimp only at h
          rcases hl2 : reconcileSubnetList u1 nw.workerSubnets false false with ⟨r2, v2⟩
          rw [hl2] at h
          cases r2 with
          | error e => simp at h
          | ok wRq =>
            simp only [Prod.mk.injEq, Except.ok.injEq] at h
            obtain ⟨rfl, rfl⟩ := h
            exact ⟨cpList, nw.workerSubnets, cpRq, wRq, wb, u1, u1, Or.inl ⟨hcp, rfl⟩,
              hl1, Or.inl ⟨hw, rfl, rfl⟩, hl2, rfl⟩
  · rw [if_neg hcp] at h
    dsimp only at h
    rcases hl1 : reconcileSubnetList w nw.controlPlaneSubnets true false with ⟨r1, u1⟩
    rw [hl1] at h
    cases r1 with
    | error e => simp at h
    | ok cpRq =>
      dsimp only at h
      by_cases hw : nw.workerSubnets = []
      · rw [if_pos hw] at h
        rw [if_pos hcp] at h
        rcases hb : buildSubnetsForZones u1 with ⟨rb, wb⟩
        rw [hb] at h
        cases rb with
        | error e => simp at h
        | ok wList =>
          dsimp only at h
          rcases hl2 : reconcileSubnetList wb wList false false with ⟨r2, v2⟩
          rw [hl2] at h
          cases r2 with
          | error e => simp at h
          | ok wRq =>
            simp only [Prod.mk.injEq, Except.ok.injEq] at h
            obtain ⟨rfl, rfl⟩ := h
            exact ⟨nw.controlPlaneSubnets, wList, cpRq, wRq, w, u1, wb,
              Or.inr ⟨hcp, rfl, rfl⟩, hl1, Or.inr (Or.inr ⟨hw, hcp, hb⟩), hl2, rfl⟩
      · rw [if_neg hw] at h
        dsimp only at h
        rcases hl2 : reconcileSubnetList u1 nw.workerSubnets false false with ⟨r2, v2⟩
        rw [hl2] at h
        cases r2 with
        | error e => simp at h
        | ok wRq =>
          simp only [Prod.mk.injEq, Except.ok.injEq] at h
          obtain ⟨rfl, rfl⟩ := h
          exact ⟨nw.controlPlaneSubnets, nw.workerSubnets, cpRq, wRq, w, u1, u1,
            Or.inr ⟨hcp, rfl, rfl⟩, hl1, Or.inl ⟨hw, rfl, rfl⟩, hl2, rfl⟩

/-- Witness for C7: on a world where both roles declare the ready subnet `s1`,
`ReconcileSubnets` succeeds with aggregate requeue `false`, and the run
decomposes exactly as the theorem states. -/
theorem c7_witness :
    ∃ (cpList wList : List Subnet) (cpRq wRq : Bool) (w1 u1 u2 : World),
      ((fxC7OkNetwork.controlPlaneSubnets = [] ∧
         buildSubnetsForZones fxC7OkWorld = (.ok cpList, w1)) ∨
       (fxC7OkNetwork.controlPlaneSubnets ≠ [] ∧
         cpList = fxC7OkNetwork.controlPlaneSubnets ∧ w1 = fxC7OkWorld)) ∧
      reconcileSubnetList w1 cpList true false = (.ok cpRq, u1) ∧
      ((fxC7OkNetwork.workerSubnets ≠ [] ∧ wList = fxC7OkNetwork.workerSubnets ∧
         u2 = u1) ∨
       (fxC7OkNetwork.workerSubnets = [] ∧ fxC7OkNetwork.controlPlaneSubnets = [] ∧
         wList = cpList ∧ u2 = u1) ∨
       (fxC7OkNetwork.workerSubnets = [] ∧ fxC7OkNetwork.controlPlaneSubnets ≠ [] ∧
         buildSubnetsForZones u1 = (.ok wList, u2))) ∧
      reconcileSubnetList u2 wList false false =
        (.ok wRq, (ReconcileSubnets fxC7OkWorld).2) ∧
      false = (cpRq || wRq) :=
  c7_subnet_roles_requeue_aggregation fxC7OkWorld fxC7OkNetwork false
    (ReconcileSubnets fxC7OkWorld).2 rfl (Prod.ext_iff.2 ⟨by decide, rfl⟩)

/-- C2: for a security group whose live rule list is non-empty, reconciling one
declared rule creates exactly one new cloud rule per declared remote with no
matching live rule (counted by `ruleRemoteUnmatched` against the pre-state) and
none for remotes that already match, and the returned requeue flag is set
exactly when some remote was unmatched. -/
theorem c2_rule_reconcile_creates_only_nonmatching
    (w : World) (gid : String) (rule : VPCSecurityGroupRule)
    (proto : VPCSecurityGroupRulePrototype) (g : CloudSecurityGroup) (rq : Bool)
    (w' : World)
    (hproto : (match rule.direction with
      | VPCSecurityGroupRuleDirection.inbound => rule.source
      | VPCSecurityGroupRuleDirection.outbound => rule.destination) = some proto)
    (hg : w.cloud.findSecurityGroup gid = some g)
    (hne : g.rules ≠ [])
    (hrun : reconcileSecurityGroupRule w gid rule = (.ok rq, w')) :
    ruleCreateCount w'.trace = ruleCreateCount w.trace +
      proto.remotes.countP (ruleRemoteUnmatched w rule.direction proto g.rules) ∧
    rq = proto.remotes.any (ruleRemoteUnmatched w rule.direction proto g.rules) :=
  reconcileSGRule_spec w gid rule proto g rq w' hproto hg hne hrun

/-- Witness for C2: the group `sga` has one live rule matching remote `Any`;
declaring remotes `[Any, Addr]` creates exactly one rule (the `countP` is `1`)
and requeues. -/
theorem c2_witness :
    ruleCreateCount (reconcileSecurityGroupRule fxC2World "sga"
        (fxRuleInbound [fxRemoteAny, fxRemoteAddr])).2.trace =
      ruleCreateCount fxC2World.trace +
        (fxProtoTcp6443 [fxRemoteAny, fxRemoteAddr]).remotes.countP
          (ruleRemoteUnmatched fxC2World
            (fxRuleInbound [fxRemoteAny, fxRemoteAddr]).direction
            (fxProtoTcp6443 [fxRemoteAny, fxRemoteAddr]) fxSGA.rules) ∧
    true = (fxProtoTcp6443 [fxRemoteAny, fxRemoteAddr]).remotes.any
        (ruleRemoteUnmatched fxC2World
          (fxRuleInbound [fxRemoteAny, fxRemoteAddr]).direction
          (fxProtoTcp6443 [fxRemoteAny, fxRemoteAddr]) fxSGA.rules) :=
  c2_rule_reconcile_creates_only_nonmatching fxC2World "sga"
    (fxRuleInbound [fxRemoteAny, fxRemoteAddr])
    (fxProtoTcp6443 [fxRemoteAny, fxRemoteAddr]) fxSGA true
    (reconcileSecurityGroupRule fxC2World "sga"
      (fxRuleInbound [fxRemoteAny, fxRemoteAddr])).2
    rfl rfl (by decide) (Prod.ext_iff.2 ⟨by decide, rfl⟩)

/-- C10: a declared tcp/udp rule whose port range is `none` is never classified
as matching any live rule (`checkSecurityGroupRuleProtocolTcpudp` never returns
`ok true` for it, whatever the live rule), so reconciling it against a group
with a non-empty live rule list creates one rule per declared remote and
requeues — on every pass. -/
theorem c10_tcpudp_nil_portrange_never_matches
    (w : World) (gid : String) (rule : VPCSecurityGroupRule)
    (proto : VPCSecurityGroupRulePrototype) (g : CloudSecurityGroup) (rq : Bool)
    (w' : World)
    (hproto : (match rule.direction with
      | VPCSecurityGroupRuleDirection.inbound => rule.source
      | VPCSecurityGroupRuleDirection.outbound => rule.destination) = some proto)
    (hfam : proto.protocol = VPCSecurityGroupRuleProtocol.tcp ∨
      proto.protocol = VPCSecurityGroupRuleProtocol.udp)
    (hpr : proto.portRange = none)
    (hg : w.cloud.findSecurityGroup gid = some g)
    (hne : g.rules ≠ [])
    (hrem : proto.remotes ≠ [])
    (hrun : reconcileSecurityGroupRule w gid rule = (.ok rq, w')) :
    (∀ (u : World) (r : VPCSecurityGroupRuleRemote) (rp : String)
       (pmin pmax : Option Int) (er : CloudRuleRemote),
       (checkSecurityGroupRuleProtocolTcpudp u proto r rp pmin pmax er).1 ≠
         Except.ok true) ∧
    ruleCreateCount w'.trace = ruleCreateCount w.trace + proto.remotes.length ∧
    rq = true := by
  have hspec := reconcileSGRule_spec w gid rule proto g rq w' hproto hg hne hrun
  have hU : ∀ r, ruleRemoteUnmatched w rule.direction proto g.rules r = true := by
    intro r
    exact decide_eq_true (matchLoop_no_portrange rule.direction proto r hfam hpr g.rules w)
  refine ⟨fun u r rp pmin pmax er => checkTcpudp_no_portrange u proto r rp pmin pmax er hpr,
    ?_, ?_⟩
  · rw [hspec.1]
    congr 1
    exact List.countP_eq_length.2 (fun a _ => hU a)
  · rw [hspec.2]
    rcases hr : proto.remotes with _ | ⟨a, t⟩
    · exact absurd hr hrem
    · simp [hU]

/-- Witness for C10: against the group `sga` (one live tcp rule), a declared
tcp rule with no port range and one remote creates one rule even though the
live rule has the same protocol, direction and remote. -/
theorem c10_witness :
    (∀ (u : World) (r : VPCSecurityGroupRuleRemote) (rp : String)
       (pmin pmax : Option Int) (er : CloudRuleRemote),
       (checkSecurityGroupRuleProtocolTcpudp u (fxProtoTcpNoRange [fxRemoteAny])
         r rp pmin pmax er).1 ≠ Except.ok true) ∧
    ruleCreateCount (reconcileSecurityGroupRule fxC2World "sga"
        (fxRuleInboundNoRange [fxRemoteAny])).2.trace =
      ruleCreateCount fxC2World.trace +
        (fxProtoTcpNoRange [fxRemoteAny]).remotes.length ∧
    true = true :=
  c10_tcpudp_nil_portrange_never_matches fxC2World "sga"
    (fxRuleInboundNoRange [fxRemoteAny])
    (fxProtoTcpNoRange [fxRemoteAny]) fxSGA true
    (reconcileSecurityGroupRule fxC2World "sga" (fxRuleInboundNoRange [fxRemoteAny])).2
    rfl (Or.inl rfl) rfl rfl (by decide) (by decide)
    (Prod.ext_iff.2 ⟨by decide, rfl⟩)

/-- C3: if any security group had to be created in phase 1 of
`ReconcileSecurityGroups` (the trace's security-group-create count grew), the
whole reconcile returns `requeue = true` when it returns `ok`, and the rule
phase is skipped entirely: the trace's rule-call count (rule listings and rule
creations) is unchanged. -/
theorem c3_group_creation_skips_rule_phase (w : World) (res : Except String Bool) (w' : World)
    (hrun : ReconcileSecurityGroups w = (res, w'))
    (hcreated : sgCreateCount w.trace < sgCreateCount w'.trace) :
    ruleCallCount w'.trace = ruleCallCount w.trace ∧
    ∀ b, res = .ok b → b = true := by
  simp only [ReconcileSecurityGroups] at hrun
  cases hnw : w.cluster.spec.network with
  | none =>
    rw [hnw] at hrun
    simp only [Prod.mk.injEq] at hrun
    obtain ⟨rfl, rfl⟩ := hrun
    exact absurd hcreated (lt_irrefl _)
  | some nw =>
    rw [hnw] at hrun
    dsimp only at hrun
    by_cases hsg : nw.securityGroups = []
    · rw [if_pos hsg] at hrun
      simp only [Prod.mk.injEq] at hrun
      obtain ⟨rfl, rfl⟩ := hrun
      exact absurd hcreated (lt_irrefl _)
    · rw [if_neg hsg] at hrun
      have hp1 := phase1_counts nw.securityGroups w false
      rcases h1 : reconcileSecurityGroupsPhase1 w nw.securityGroups false with ⟨r1, w1⟩
      rw [h1] at hrun hp1
      dsimp only at hrun hp1
      cases r1 with
      | error e =>
        simp only [Prod.mk.injEq] at hrun
        obtain ⟨rfl, rfl⟩ := hrun
        refine ⟨hp1.1, ?_⟩
        intro b hb
        simp at hb
      | ok b1 =>
        cases b1 with
        | true =>
          simp only [Prod.mk.injEq] at hrun
          obtain ⟨rfl, rfl⟩ := hrun
          refine ⟨hp1.1, ?_⟩
          intro b hb
          simp only [Except.ok.injEq] at hb
          exact hb.symm
        | false =>
          dsimp only at hrun
          have hp2 := phase2_sgc nw.securityGroups w1 false
          rcases h2 : reconcileSecurityGroupsPhase2 w1 nw.securityGroups false with ⟨r2, w2⟩
          rw [h2] at hrun hp2
          dsimp only at hrun hp2
          have hcnt : sgCreateCount w2.trace = sgCreateCount w.trace := by
            rw [hp2]
            exact hp1.2.1 rfl
          cases r2 with
          | error e =>
            simp only [Prod.mk.injEq] at hrun
            obtain ⟨rfl, rfl⟩ := hrun
            rw [hcnt] at hcreated
            exact absurd hcreated (lt_irrefl _)
          | ok rq =>
            simp only [Prod.mk.injEq] at hrun
            obtain ⟨rfl, rfl⟩ := hrun
            rw [hcnt] at hcreated
            exact absurd hcreated (lt_irrefl _)

/-- Witness for C3: from the initial fixture world the security group `sg1`
must be created; the pass returns `ok true` and performs no rule calls. -/
theorem c3_witness :
    ruleCallCount (ReconcileSecurityGroups fxWorld).2.trace =
      ruleCallCount fxWorld.trace ∧
    ∀ b, (Except.ok true : Except String Bool) = .ok b → b = true :=
  c3_group_creation_skips_rule_phase fxWorld (.ok true) (ReconcileSecurityGroups fxWorld).2
    (Prod.ext_iff.2 ⟨by decide, rfl⟩) (by decide)

end VPCReconciler
